import Mathlib

/-! # gnupg-pkcs11-scd: `keyutil.c`

A shallow embedding of `keyutil_get_cert_sexp` (both the `USE_GNUTLS` and the
`USE_OPENSSL` build) and of `keyutil_get_cert_hexgrip`.

The collaborators (GnuTLS, OpenSSL, libgcrypt) are external: every call to one
of them is given an outcome chosen by the caller of the model (a return code,
or a null / non-null result).  A successful acquiring call receives a fresh
handle from an allocation counter; the heap records which handles are live, the
ordered trace of every collaborator call with its arguments, and whether a
releasing call was ever given a handle that is not live, which in C is
undefined behaviour.
-/

namespace Keyutil

/-! ## Handles, constants -/

/-- A C pointer / opaque handle; `0` is `NULL`. -/
abbrev Ptr := Nat

/-- The C null pointer. -/
def NULL : Ptr := 0

/-- Values of `gpg_err_code_t`.  The five codes the function body names are
    declared in libgpg-error's `gpg-error.h`, with the values given below. -/
abbrev gpg_err_code_t := Nat

def GPG_ERR_NO_ERROR : gpg_err_code_t := 0
def GPG_ERR_BAD_KEY : gpg_err_code_t := 19
def GPG_ERR_BAD_CERT : gpg_err_code_t := 36
def GPG_ERR_WRONG_PUBKEY_ALGO : gpg_err_code_t := 41
def GPG_ERR_ENOMEM : gpg_err_code_t := 32854

/-- GnuTLS success return code. -/
def GNUTLS_E_SUCCESS : Int := 0

/-- OpenSSL key-type tag of RSA keys (`NID_rsaEncryption`). -/
def EVP_PKEY_RSA : Int := 6

/-- The encodings `gcry_mpi_scan` accepts (`enum gcry_mpi_format`). -/
inductive gcry_mpi_format
  | GCRYMPI_FMT_NONE
  | GCRYMPI_FMT_STD
  | GCRYMPI_FMT_PGP
  | GCRYMPI_FMT_SSH
  | GCRYMPI_FMT_HEX
  | GCRYMPI_FMT_USG
  | GCRYMPI_FMT_OPAQUE
  deriving DecidableEq, Repr

open gcry_mpi_format

/-- The two RSA fields read on the OpenSSL path, `pubkey->pkey.rsa->n` and `->e`. -/
inductive RsaField
  | n
  | e
  deriving DecidableEq, Repr

/-- The format string handed to `gcry_sexp_build`. -/
def sexp_template : String := "(public-key (rsa (n %m) (e %m)))"

/-! ## Collaborator calls -/

/-- One collaborator call, with the arguments it was given and what it returned;
    for an acquiring call the last handle(s) are what it acquired, `NULL` when it
    failed. -/
inductive Event
  | gnutls_x509_crt_init (rc : Int) (cert : Ptr)
  | gnutls_x509_crt_import (cert : Ptr) (der : Ptr) (len : Nat) (rc : Int)
  | gnutls_x509_crt_get_pk_rsa_raw (cert : Ptr) (rc : Int) (m e : Ptr)
  | d2i_X509 (der : Ptr) (len : Int) (x509 : Ptr)
  | X509_get_pubkey (x509 : Ptr) (pubkey : Ptr)
  | pubkey_type (pubkey : Ptr) (type : Int)
  | BN_bn2hex (pubkey : Ptr) (field : RsaField) (hex : Ptr)
  | gcry_mpi_scan (format : gcry_mpi_format) (buffer : Ptr) (buflen : Nat)
      (rc : Nat) (mpi : Ptr)
  | gcry_sexp_build (format : String) (arg1 arg2 : Ptr) (rc : Nat) (sexp : Ptr)
  | gcry_mpi_release (mpi : Ptr)
  | gnutls_free (data : Ptr)
  | gnutls_x509_crt_deinit (cert : Ptr)
  | X509_free (x509 : Ptr)
  | EVP_PKEY_free (pubkey : Ptr)
  | OPENSSL_free (hex : Ptr)
  | gcry_sexp_release (sexp : Ptr)
  deriving DecidableEq, Repr

/-- The allocation state threaded through the call. -/
structure Heap where
  /-- the last handle handed out; fresh handles are `next + 1`, never `NULL` -/
  next : Nat
  /-- handles acquired and not yet released -/
  live : List Ptr
  /-- every collaborator call so far, oldest first -/
  trace : List Event
  /-- a releasing call was given a handle that is not live (never acquired, or
      already released): the C execution has undefined behaviour from that call
      on and need not reach the `return` -/
  undefined : Bool
  deriving DecidableEq, Repr

/-- The heap on entry to the function: nothing acquired yet. -/
def Heap.empty : Heap := ⟨0, [], [], false⟩

/-- Record a call in the trace. -/
def Heap.log (h : Heap) (ev : Event) : Heap :=
  { h with trace := h.trace ++ [ev] }

/-- A successful acquiring call: a fresh non-null handle becomes live. -/
def Heap.alloc (h : Heap) : Ptr × Heap :=
  (h.next + 1, { h with next := h.next + 1, live := h.live ++ [h.next + 1] })

/-- A releasing call on `p`: `p` is no longer live. -/
def Heap.free (h : Heap) (p : Ptr) : Heap :=
  { h with live := h.live.erase p }

/-- A `gnutls_datum_t`; `size` is an `unsigned int`. -/
structure gnutls_datum_t where
  data : Ptr
  size : Nat
  deriving DecidableEq, Repr

/-- The conversion of the `size_t len` to the `unsigned int size` field in the
    initialiser `gnutls_datum_t datum = {der, len}`: reduction modulo `2 ^ 32`
    (`unsigned int` has 32 bits on the platforms the program builds on). -/
def size_t_to_unsigned_int (len : Nat) : Nat := len % 2 ^ 32

/-- The conversion of the `size_t len` to the `long` parameter of `d2i_X509`,
    in the LP64 data model (`size_t` and `long` both 64 bits): values from
    `2 ^ 63` on wrap to negative. -/
def size_t_to_long (len : Nat) : Int :=
  if len % 2 ^ 64 < 2 ^ 63 then ((len % 2 ^ 64 : Nat) : Int)
  else ((len % 2 ^ 64 : Nat) : Int) - 2 ^ 64

/-! ## Acquiring collaborators

Each takes its outcome as first argument(s), then the C arguments, and returns
the C result together with the new heap.  On failure nothing is acquired and
the out-parameter keeps the value it had. -/

/-- Model of `gnutls_x509_crt_init (&cert)`. -/
def gnutls_x509_crt_init (rc : Int) (cert : Ptr) (h : Heap) : Int × Ptr × Heap :=
  if rc = GNUTLS_E_SUCCESS then
    let (p, h1) := h.alloc
    (rc, p, h1.log (.gnutls_x509_crt_init rc p))
  else
    (rc, cert, h.log (.gnutls_x509_crt_init rc NULL))

/-- Model of `gnutls_x509_crt_import (cert, &datum, GNUTLS_X509_FMT_DER)`. -/
def gnutls_x509_crt_import (rc : Int) (cert : Ptr) (datum : gnutls_datum_t)
    (h : Heap) : Int × Heap :=
  (rc, h.log (.gnutls_x509_crt_import cert datum.data datum.size rc))

/-- Model of `gnutls_x509_crt_get_pk_rsa_raw (cert, &m, &e)`: on success both
    datums are freshly allocated, with the sizes the outcome gives. -/
def gnutls_x509_crt_get_pk_rsa_raw (rc : Int) (m_size e_size : Nat) (cert : Ptr)
    (m e : gnutls_datum_t) (h : Heap) :
    Int × gnutls_datum_t × gnutls_datum_t × Heap :=
  if rc = GNUTLS_E_SUCCESS then
    let (pm, h1) := h.alloc
    let (pe, h2) := h1.alloc
    (rc, ⟨pm, m_size⟩, ⟨pe, e_size⟩,
      h2.log (.gnutls_x509_crt_get_pk_rsa_raw cert rc pm pe))
  else
    (rc, m, e, h.log (.gnutls_x509_crt_get_pk_rsa_raw cert rc NULL NULL))

/-- Model of `d2i_X509 (&x509, &der, len)`; `ok = false` is a `NULL` result. -/
def d2i_X509 (ok : Bool) (x509 : Ptr) (der : Ptr) (len : Int) (h : Heap) :
    Ptr × Ptr × Heap :=
  if ok then
    let (p, h1) := h.alloc
    (p, p, h1.log (.d2i_X509 der len p))
  else
    (NULL, x509, h.log (.d2i_X509 der len NULL))

/-- Model of `X509_get_pubkey (x509)`; `ok = false` is a `NULL` result. -/
def X509_get_pubkey (ok : Bool) (x509 : Ptr) (h : Heap) : Ptr × Heap :=
  if ok then
    let (p, h1) := h.alloc
    (p, h1.log (.X509_get_pubkey x509 p))
  else
    (NULL, h.log (.X509_get_pubkey x509 NULL))

/-- The read of `pubkey->type`. -/
def pubkey_type (type : Int) (pubkey : Ptr) (h : Heap) : Int × Heap :=
  (type, h.log (.pubkey_type pubkey type))

/-- Model of `BN_bn2hex (pubkey->pkey.rsa-><field>)`; `ok = false` is `NULL`. -/
def BN_bn2hex (ok : Bool) (pubkey : Ptr) (field : RsaField) (h : Heap) :
    Ptr × Heap :=
  if ok then
    let (p, h1) := h.alloc
    (p, h1.log (.BN_bn2hex pubkey field p))
  else
    (NULL, h.log (.BN_bn2hex pubkey field NULL))

/-- Model of `gcry_mpi_scan (&mpi, format, buffer, buflen, NULL)`; a non-zero
    `rc` is failure. -/
def gcry_mpi_scan (rc : Nat) (mpi : Ptr) (format : gcry_mpi_format)
    (buffer : Ptr) (buflen : Nat) (h : Heap) : Nat × Ptr × Heap :=
  if rc = 0 then
    let (p, h1) := h.alloc
    (rc, p, h1.log (.gcry_mpi_scan format buffer buflen rc p))
  else
    (rc, mpi, h.log (.gcry_mpi_scan format buffer buflen rc NULL))

/-- Model of `gcry_sexp_build (&sexp, NULL, format, arg1, arg2)`; a non-zero
    `rc` is failure. -/
def gcry_sexp_build (rc : Nat) (sexp : Ptr) (format : String) (arg1 arg2 : Ptr)
    (h : Heap) : Nat × Ptr × Heap :=
  if rc = 0 then
    let (p, h1) := h.alloc
    (rc, p, h1.log (.gcry_sexp_build format arg1 arg2 rc p))
  else
    (rc, sexp, h.log (.gcry_sexp_build format arg1 arg2 rc NULL))

/-- A releasing collaborator call.  Given a live handle it is logged and the
    handle leaves the live set.  Given anything else (the callers only release
    non-null values) the library frees memory it does not own: the call is
    logged and the heap is marked `undefined`.  The embedding keeps following
    the source text after that, so that the trace shows every call the source
    makes, but such a result is not one the caller is guaranteed to receive:
    see `Result.returns`. -/
def release (ev : Ptr → Event) (p : Ptr) (h : Heap) : Heap :=
  if p ∈ h.live then (h.log (ev p)).free p
  else { h.log (ev p) with undefined := true }

/-! ## `keyutil_get_cert_sexp`, `USE_GNUTLS` build -/

/-- The outcome of every collaborator call on the GnuTLS path, and the
    indeterminate initial contents of the two never-initialised locals
    `gnutls_datum_t m, e;`. -/
structure GnutlsOutcomes where
  crt_init : Int
  crt_import : Int
  get_pk_rsa_raw : Int
  m_size : Nat
  e_size : Nat
  mpi_scan_n : Nat
  mpi_scan_e : Nat
  sexp_build : Nat
  m_uninit : gnutls_datum_t
  e_uninit : gnutls_datum_t
  deriving DecidableEq, Repr

/-- The locals of the GnuTLS build, the caller's slot `*p_sexp` (with a ghost
    flag recording whether it was assigned), and the heap. -/
structure GnutlsFrame where
  error : gpg_err_code_t
  n_mpi : Ptr
  e_mpi : Ptr
  sexp : Ptr
  cert : Ptr
  datum : gnutls_datum_t
  m : gnutls_datum_t
  e : gnutls_datum_t
  p_sexp : Ptr
  p_sexp_written : Bool
  heap : Heap
  deriving DecidableEq, Repr

/-- What the caller observes when the function returns. -/
structure Result where
  /-- the returned `gpg_err_code_t` -/
  ret : gpg_err_code_t
  /-- the contents of the caller's slot `*p_sexp` -/
  p_sexp : Ptr
  /-- whether the assignment `*p_sexp = sexp` was executed -/
  p_sexp_written : Bool
  /-- the heap at the return -/
  heap : Heap
  deriving DecidableEq, Repr

/-- Declarations at the top of the function (lines 61-69). -/
def gnutls_entry (o : GnutlsOutcomes) (der : Ptr) (len : Nat) (p_sexp : Ptr) :
    GnutlsFrame :=
  { error := GPG_ERR_NO_ERROR, n_mpi := NULL, e_mpi := NULL, sexp := NULL,
    cert := NULL, datum := ⟨der, size_t_to_unsigned_int len⟩, m := o.m_uninit,
    e := o.e_uninit,
    p_sexp := p_sexp, p_sexp_written := false, heap := Heap.empty }

/-- Lines 71-77: `gnutls_x509_crt_init`. -/
def gnutls_block_init (o : GnutlsOutcomes) (f : GnutlsFrame) : GnutlsFrame :=
  if f.error = GPG_ERR_NO_ERROR then
    let (rc, cert, h) := gnutls_x509_crt_init o.crt_init f.cert f.heap
    let f1 := { f with cert := cert, heap := h }
    if rc ≠ GNUTLS_E_SUCCESS then
      { f1 with cert := NULL, error := GPG_ERR_ENOMEM }
    else f1
  else f

/-- Lines 79-84: `gnutls_x509_crt_import`. -/
def gnutls_block_import (o : GnutlsOutcomes) (f : GnutlsFrame) : GnutlsFrame :=
  if f.error = GPG_ERR_NO_ERROR then
    let (rc, h) := gnutls_x509_crt_import o.crt_import f.cert f.datum f.heap
    let f1 := { f with heap := h }
    if rc ≠ GNUTLS_E_SUCCESS then
      { f1 with error := GPG_ERR_BAD_CERT }
    else f1
  else f

/-- Lines 86-93: `gnutls_x509_crt_get_pk_rsa_raw`. -/
def gnutls_block_rsa_raw (o : GnutlsOutcomes) (f : GnutlsFrame) : GnutlsFrame :=
  if f.error = GPG_ERR_NO_ERROR then
    let (rc, m, e, h) :=
      gnutls_x509_crt_get_pk_rsa_raw o.get_pk_rsa_raw o.m_size o.e_size
        f.cert f.m f.e f.heap
    let f1 := { f with m := m, e := e, heap := h }
    if rc ≠ GNUTLS_E_SUCCESS then
      { f1 with error := GPG_ERR_BAD_KEY, m := ⟨NULL, f1.m.size⟩,
                e := ⟨NULL, f1.e.size⟩ }
    else f1
  else f

/-- Lines 95-103: the two `gcry_mpi_scan` calls joined by `||`; the second is
    evaluated only when the first returned zero. -/
def gnutls_block_scan (o : GnutlsOutcomes) (f : GnutlsFrame) : GnutlsFrame :=
  if f.error = GPG_ERR_NO_ERROR then
    let (rc1, n_mpi, h1) :=
      gcry_mpi_scan o.mpi_scan_n f.n_mpi GCRYMPI_FMT_USG f.m.data f.m.size f.heap
    let f1 := { f with n_mpi := n_mpi, heap := h1 }
    if rc1 ≠ 0 then
      { f1 with error := GPG_ERR_BAD_KEY }
    else
      let (rc2, e_mpi, h2) :=
        gcry_mpi_scan o.mpi_scan_e f1.e_mpi GCRYMPI_FMT_USG f1.e.data f1.e.size
          f1.heap
      let f2 := { f1 with e_mpi := e_mpi, heap := h2 }
      if rc2 ≠ 0 then
        { f2 with error := GPG_ERR_BAD_KEY }
      else f2
  else f

/-- Lines 154-165: `gcry_sexp_build`. -/
def gnutls_block_build (o : GnutlsOutcomes) (f : GnutlsFrame) : GnutlsFrame :=
  if f.error = GPG_ERR_NO_ERROR then
    let (rc, sexp, h) :=
      gcry_sexp_build o.sexp_build f.sexp sexp_template f.n_mpi f.e_mpi f.heap
    let f1 := { f with sexp := sexp, heap := h }
    if rc ≠ 0 then
      { f1 with error := GPG_ERR_BAD_KEY }
    else f1
  else f

/-- Lines 167-170: hand the S-expression to the caller. -/
def gnutls_block_store (f : GnutlsFrame) : GnutlsFrame :=
  if f.error = GPG_ERR_NO_ERROR then
    { f with p_sexp := f.sexp, p_sexp_written := true, sexp := NULL }
  else f

/-- Lines 172-180: release the two big integers. -/
def gnutls_block_release_mpi (f : GnutlsFrame) : GnutlsFrame :=
  let f1 :=
    if f.n_mpi ≠ NULL then
      { f with heap := release .gcry_mpi_release f.n_mpi f.heap, n_mpi := NULL }
    else f
  if f1.e_mpi ≠ NULL then
    { f1 with heap := release .gcry_mpi_release f1.e_mpi f1.heap, e_mpi := NULL }
  else f1

/-- Lines 184-197: release the two raw buffers and the certificate. -/
def gnutls_block_release_cert (f : GnutlsFrame) : GnutlsFrame :=
  let f1 :=
    if f.m.data ≠ NULL then
      { f with heap := release .gnutls_free f.m.data f.heap,
               m := ⟨NULL, f.m.size⟩ }
    else f
  let f2 :=
    if f1.e.data ≠ NULL then
      { f1 with heap := release .gnutls_free f1.e.data f1.heap,
                e := ⟨NULL, f1.e.size⟩ }
    else f1
  if f2.cert ≠ NULL then
    { f2 with heap := release .gnutls_x509_crt_deinit f2.cert f2.heap,
              cert := NULL }
  else f2

/-- Lines 225-228: release an S-expression that was not handed out. -/
def gnutls_block_release_sexp (f : GnutlsFrame) : GnutlsFrame :=
  if f.sexp ≠ NULL then
    { f with heap := release .gcry_sexp_release f.sexp f.heap, sexp := NULL }
  else f

/-- The function `keyutil_get_cert_sexp (der, len, p_sexp)` as compiled with
    `USE_GNUTLS`; `p_sexp` is the content of the caller's slot on entry. -/
def keyutil_get_cert_sexp_gnutls (o : GnutlsOutcomes) (der : Ptr) (len : Nat)
    (p_sexp : Ptr) : Result :=
  let f := gnutls_entry o der len p_sexp
  let f := gnutls_block_init o f
  let f := gnutls_block_import o f
  let f := gnutls_block_rsa_raw o f
  let f := gnutls_block_scan o f
  let f := gnutls_block_build o f
  let f := gnutls_block_store f
  let f := gnutls_block_release_mpi f
  let f := gnutls_block_release_cert f
  let f := gnutls_block_release_sexp f
  ⟨f.error, f.p_sexp, f.p_sexp_written, f.heap⟩

/-! ## `keyutil_get_cert_sexp`, `USE_OPENSSL` build -/

/-- The outcome of every collaborator call on the OpenSSL path; a `Bool` is
    "the returned pointer is not `NULL`", `pkey_type` is the value of
    `pubkey->type`. -/
structure OpensslOutcomes where
  d2i_X509 : Bool
  X509_get_pubkey : Bool
  pkey_type : Int
  bn2hex_n : Bool
  bn2hex_e : Bool
  mpi_scan_n : Nat
  mpi_scan_e : Nat
  sexp_build : Nat
  deriving DecidableEq, Repr

/-- The locals of the OpenSSL build, the caller's slot `*p_sexp` (with a ghost
    flag recording whether it was assigned), and the heap. -/
structure OpensslFrame where
  error : gpg_err_code_t
  n_mpi : Ptr
  e_mpi : Ptr
  sexp : Ptr
  x509 : Ptr
  pubkey : Ptr
  n_hex : Ptr
  e_hex : Ptr
  der : Ptr
  len : Nat
  p_sexp : Ptr
  p_sexp_written : Bool
  heap : Heap
  deriving DecidableEq, Repr

/-- Declarations at the top of the function (lines 61-63, 107-109). -/
def openssl_entry (der : Ptr) (len : Nat) (p_sexp : Ptr) : OpensslFrame :=
  { error := GPG_ERR_NO_ERROR, n_mpi := NULL, e_mpi := NULL, sexp := NULL,
    x509 := NULL, pubkey := NULL, n_hex := NULL, e_hex := NULL,
    der := der, len := len, p_sexp := p_sexp, p_sexp_written := false, heap := Heap.empty }

/-- Lines 111-116: `d2i_X509`. -/
def openssl_block_d2i (o : OpensslOutcomes) (f : OpensslFrame) : OpensslFrame :=
  if f.error = GPG_ERR_NO_ERROR then
    let (r, x509, h) :=
      d2i_X509 o.d2i_X509 f.x509 f.der (size_t_to_long f.len) f.heap
    let f1 := { f with x509 := x509, heap := h }
    if r = NULL then
      { f1 with error := GPG_ERR_BAD_CERT }
    else f1
  else f

/-- Lines 118-123: `X509_get_pubkey`; `.error r` is the `return` statement of
    line 122, which leaves the function at once with result `r`. -/
def openssl_block_pubkey (o : OpensslOutcomes) (f : OpensslFrame) :
    Except Result OpensslFrame :=
  if f.error = GPG_ERR_NO_ERROR then
    let (pubkey, h) := X509_get_pubkey o.X509_get_pubkey f.x509 f.heap
    let f1 := { f with pubkey := pubkey, heap := h }
    if f1.pubkey = NULL then
      .error ⟨GPG_ERR_BAD_CERT, f1.p_sexp, f1.p_sexp_written, f1.heap⟩
    else .ok f1
  else .ok f

/-- Lines 125-130: the check of `pubkey->type`. -/
def openssl_block_type (o : OpensslOutcomes) (f : OpensslFrame) : OpensslFrame :=
  if f.error = GPG_ERR_NO_ERROR then
    let (type, h) := pubkey_type o.pkey_type f.pubkey f.heap
    let f1 := { f with heap := h }
    if type ≠ EVP_PKEY_RSA then
      { f1 with error := GPG_ERR_WRONG_PUBKEY_ALGO }
    else f1
  else f

/-- Lines 132-139: both `BN_bn2hex` calls, then the null test. -/
def openssl_block_bn2hex (o : OpensslOutcomes) (f : OpensslFrame) : OpensslFrame :=
  if f.error = GPG_ERR_NO_ERROR then
    let (n_hex, h1) := BN_bn2hex o.bn2hex_n f.pubkey .n f.heap
    let (e_hex, h2) := BN_bn2hex o.bn2hex_e f.pubkey .e h1
    let f1 := { f with n_hex := n_hex, e_hex := e_hex, heap := h2 }
    if f1.n_hex = NULL ∨ f1.e_hex = NULL then
      { f1 with error := GPG_ERR_BAD_KEY }
    else f1
  else f

/-- Lines 141-149: the two `gcry_mpi_scan` calls joined by `||`; the second is
    evaluated only when the first returned zero. -/
def openssl_block_scan (o : OpensslOutcomes) (f : OpensslFrame) : OpensslFrame :=
  if f.error = GPG_ERR_NO_ERROR then
    let (rc1, n_mpi, h1) :=
      gcry_mpi_scan o.mpi_scan_n f.n_mpi GCRYMPI_FMT_HEX f.n_hex 0 f.heap
    let f1 := { f with n_mpi := n_mpi, heap := h1 }
    if rc1 ≠ 0 then
      { f1 with error := GPG_ERR_BAD_KEY }
    else
      let (rc2, e_mpi, h2) :=
        gcry_mpi_scan o.mpi_scan_e f1.e_mpi GCRYMPI_FMT_HEX f1.e_hex 0 f1.heap
      let f2 := { f1 with e_mpi := e_mpi, heap := h2 }
      if rc2 ≠ 0 then
        { f2 with error := GPG_ERR_BAD_KEY }
      else f2
  else f

/-- Lines 154-165: `gcry_sexp_build`. -/
def openssl_block_build (o : OpensslOutcomes) (f : OpensslFrame) : OpensslFrame :=
  if f.error = GPG_ERR_NO_ERROR then
    let (rc, sexp, h) :=
      gcry_sexp_build o.sexp_build f.sexp sexp_template f.n_mpi f.e_mpi f.heap
    let f1 := { f with sexp := sexp, heap := h }
    if rc ≠ 0 then
      { f1 with error := GPG_ERR_BAD_KEY }
    else f1
  else f

/-- Lines 167-170: hand the S-expression to the caller. -/
def openssl_block_store (f : OpensslFrame) : OpensslFrame :=
  if f.error = GPG_ERR_NO_ERROR then
    { f with p_sexp := f.sexp, p_sexp_written := true, sexp := NULL }
  else f

/-- Lines 172-180: release the two big integers. -/
def openssl_block_release_mpi (f : OpensslFrame) : OpensslFrame :=
  let f1 :=
    if f.n_mpi ≠ NULL then
      { f with heap := release .gcry_mpi_release f.n_mpi f.heap, n_mpi := NULL }
    else f
  if f1.e_mpi ≠ NULL then
    { f1 with heap := release .gcry_mpi_release f1.e_mpi f1.heap, e_mpi := NULL }
  else f1

/-- Lines 201-219: release the certificate, the key and the two hex strings. -/
def openssl_block_release_cert (f : OpensslFrame) : OpensslFrame :=
  let f1 :=
    if f.x509 ≠ NULL then
      { f with heap := release .X509_free f.x509 f.heap, x509 := NULL }
    else f
  let f2 :=
    if f1.pubkey ≠ NULL then
      { f1 with heap := release .EVP_PKEY_free f1.pubkey f1.heap, pubkey := NULL }
    else f1
  let f3 :=
    if f2.n_hex ≠ NULL then
      { f2 with heap := release .OPENSSL_free f2.n_hex f2.heap, n_hex := NULL }
    else f2
  if f3.e_hex ≠ NULL then
    { f3 with heap := release .OPENSSL_free f3.e_hex f3.heap, e_hex := NULL }
  else f3

/-- Lines 225-228: release an S-expression that was not handed out. -/
def openssl_block_release_sexp (f : OpensslFrame) : OpensslFrame :=
  if f.sexp ≠ NULL then
    { f with heap := release .gcry_sexp_release f.sexp f.heap, sexp := NULL }
  else f

/-- The function `keyutil_get_cert_sexp (der, len, p_sexp)` as compiled with
    `USE_OPENSSL`; `p_sexp` is the content of the caller's slot on entry. -/
def keyutil_get_cert_sexp_openssl (o : OpensslOutcomes) (der : Ptr) (len : Nat)
    (p_sexp : Ptr) : Result :=
  let f := openssl_entry der len p_sexp
  let f := openssl_block_d2i o f
  match openssl_block_pubkey o f with
  | .error r => r
  | .ok f =>
    let f := openssl_block_type o f
    let f := openssl_block_bn2hex o f
    let f := openssl_block_scan o f
    let f := openssl_block_build o f
    let f := openssl_block_store f
    let f := openssl_block_release_mpi f
    let f := openssl_block_release_cert f
    let f := openssl_block_release_sexp f
    ⟨f.error, f.p_sexp, f.p_sexp_written, f.heap⟩

/-! ## `keyutil_get_cert_hexgrip` -/

/-- The contents of `unsigned char grip[20]` after a successful digest. -/
abbrev Grip := { bytes : List Nat // bytes.length = 20 }

/-- The lowercase hexadecimal digit of a value below 16. -/
def hex_digit (d : Nat) : Char :=
  if d < 10 then Char.ofNat (48 + d) else Char.ofNat (87 + d)

/-- The two digits of one byte, high nibble first. -/
def hex_of_byte (b : Nat) : List Char :=
  [hex_digit (b % 256 / 16), hex_digit (b % 16)]

/-- Modelled from the spec: the body of `encoding_bin2hex` is not among the
    sources (only its declaration in `encoding.h`).  Spec 4.1: "encodes raw bytes
    into a lowercase hex string of length `2 * len(source)`; always succeeds for
    valid input (fails only with `OutOfMemory` on allocation failure)".
    `alloc_ok` is the outcome of the allocation; `none` is the null return. -/
def encoding_bin2hex (alloc_ok : Bool) (source : List Nat) (source_size : Nat) :
    Option String :=
  if alloc_ok then
    some (String.mk ((source.take source_size).flatMap hex_of_byte))
  else none

/-- The function `keyutil_get_cert_hexgrip (sexp)`.  `gcry_pk_get_keygrip` is the
    digest collaborator (`none` is its null return, `some grip` the 20 bytes it
    wrote into `grip`), `alloc_ok` the allocation outcome inside
    `encoding_bin2hex`; `none` is the null return. -/
def keyutil_get_cert_hexgrip (gcry_pk_get_keygrip : Ptr → Option Grip)
    (alloc_ok : Bool) (sexp : Ptr) : Option String :=
  let ret : Option String := none
  match gcry_pk_get_keygrip sexp with
  | some grip => encoding_bin2hex alloc_ok grip.val 20
  | none => ret

/-- A character of `[0-9a-f]`. -/
def is_lower_hex (c : Char) : Bool :=
  (48 ≤ c.toNat && c.toNat ≤ 57) || (97 ≤ c.toNat && c.toNat ≤ 102)

/-! ## Observations on a finished call -/

/-- The handle a releasing call was given. -/
def Event.released : Event → Option Ptr
  | .gcry_mpi_release p => some p
  | .gnutls_free p => some p
  | .gnutls_x509_crt_deinit p => some p
  | .X509_free p => some p
  | .EVP_PKEY_free p => some p
  | .OPENSSL_free p => some p
  | .gcry_sexp_release p => some p
  | _ => none

/-- The handles an acquiring call produced (none when it failed). -/
def Event.acquired : Event → List Ptr
  | .gnutls_x509_crt_init _ c => [c].filter (· ≠ NULL)
  | .gnutls_x509_crt_get_pk_rsa_raw _ _ m e => [m, e].filter (· ≠ NULL)
  | .d2i_X509 _ _ x => [x].filter (· ≠ NULL)
  | .X509_get_pubkey _ k => [k].filter (· ≠ NULL)
  | .BN_bn2hex _ _ s => [s].filter (· ≠ NULL)
  | .gcry_mpi_scan _ _ _ _ a => [a].filter (· ≠ NULL)
  | .gcry_sexp_build _ _ _ _ s => [s].filter (· ≠ NULL)
  | _ => []

/-- The handles a call was given as arguments (the input `der` is not one). -/
def Event.uses : Event → List Ptr
  | .gnutls_x509_crt_init _ _ => []
  | .gnutls_x509_crt_import c _ _ _ => [c]
  | .gnutls_x509_crt_get_pk_rsa_raw c _ _ _ => [c]
  | .d2i_X509 _ _ _ => []
  | .X509_get_pubkey x _ => [x]
  | .pubkey_type k _ => [k]
  | .BN_bn2hex k _ _ => [k]
  | .gcry_mpi_scan _ b _ _ _ => [b]
  | .gcry_sexp_build _ a b _ _ => [a, b]
  | .gcry_mpi_release p => [p]
  | .gnutls_free p => [p]
  | .gnutls_x509_crt_deinit p => [p]
  | .X509_free p => [p]
  | .EVP_PKEY_free p => [p]
  | .OPENSSL_free p => [p]
  | .gcry_sexp_release p => [p]

/-- Every handle released during the call, in order, with repetitions. -/
def Heap.released (h : Heap) : List Ptr := h.trace.filterMap Event.released

/-- Every handle acquired during the call, in order. -/
def Heap.acquired (h : Heap) : List Ptr := h.trace.flatMap Event.acquired

/-- The calls of the steps proper: the trace without the releasing calls. -/
def Heap.calls (h : Heap) : List Event :=
  h.trace.filter fun ev => ev.released.isNone

/-- The call comes back to the caller with this result: no releasing call was
    given a handle that is not live.  When it fails the execution has undefined
    behaviour and the remaining fields only say what the source text goes on to
    do. -/
def Result.returns (r : Result) : Prop := r.heap.undefined = false

instance (r : Result) : Decidable r.returns := by
  unfold Result.returns; infer_instance

/-- No leak: at the return nothing is live except, on success, the S-expression
    handed to the caller. -/
def Result.leak_free (r : Result) : Prop :=
  r.heap.live = if r.ret = GPG_ERR_NO_ERROR then [r.p_sexp] else []

instance (r : Result) : Decidable r.leak_free := by
  unfold Result.leak_free; infer_instance

/-- Release discipline: only handles acquired in this call are released, none
    twice, and on success the caller's S-expression is not among them. -/
def Result.release_discipline (r : Result) : Prop :=
  (∀ p ∈ r.heap.released, p ∈ r.heap.acquired) ∧ r.heap.released.Nodup ∧
    (r.ret = GPG_ERR_NO_ERROR → r.p_sexp ∉ r.heap.released)

instance (r : Result) : Decidable r.release_discipline := by
  unfold Result.release_discipline; infer_instance

/-- Checks a trace from the left: every call before the cleanup is given only
    handles acquired earlier in the same trace; `got` is what was acquired so
    far. -/
def handles_fed (got : List Ptr) : List Event → Bool
  | [] => true
  | ev :: rest =>
    (ev.released.isSome || ev.uses.all (· ∈ got)) &&
      handles_fed (got ++ ev.acquired) rest

/-- The caller's view of the output slot: `entry` is what `*p_sexp` held when
    the function was entered.  On an error return the slot was not assigned and
    still holds `entry`; on `GPG_ERR_NO_ERROR` it was assigned the non-null
    S-expression a successful `gcry_sexp_build` on the template produced. -/
def Result.no_partial_output (entry : Ptr) (r : Result) : Prop :=
  (r.ret ≠ GPG_ERR_NO_ERROR → r.p_sexp_written = false ∧ r.p_sexp = entry) ∧
  (r.ret = GPG_ERR_NO_ERROR → r.p_sexp_written = true ∧ r.p_sexp ≠ NULL ∧
    ∃ n_mpi e_mpi,
      Event.gcry_sexp_build sexp_template n_mpi e_mpi 0 r.p_sexp ∈ r.heap.trace) ∧
  (r.p_sexp_written = true ↔ r.ret = GPG_ERR_NO_ERROR)


/-! ## The early-exit reading of the step sequence -/

/-- The collaborator function a call went to; all releasing calls are `cleanup`. -/
inductive Callee
  | gnutls_x509_crt_init
  | gnutls_x509_crt_import
  | gnutls_x509_crt_get_pk_rsa_raw
  | d2i_X509
  | X509_get_pubkey
  | pubkey_type
  | BN_bn2hex
  | gcry_mpi_scan
  | gcry_sexp_build
  | cleanup
  deriving DecidableEq, Repr

/-- The function a call event went to. -/
def Event.callee : Event → Callee
  | .gnutls_x509_crt_init _ _ => .gnutls_x509_crt_init
  | .gnutls_x509_crt_import _ _ _ _ => .gnutls_x509_crt_import
  | .gnutls_x509_crt_get_pk_rsa_raw _ _ _ _ => .gnutls_x509_crt_get_pk_rsa_raw
  | .d2i_X509 _ _ _ => .d2i_X509
  | .X509_get_pubkey _ _ => .X509_get_pubkey
  | .pubkey_type _ _ => .pubkey_type
  | .BN_bn2hex _ _ _ => .BN_bn2hex
  | .gcry_mpi_scan _ _ _ _ _ => .gcry_mpi_scan
  | .gcry_sexp_build _ _ _ _ _ => .gcry_sexp_build
  | _ => .cleanup

/-- The steps of the GnuTLS build in source order: init, parse, raw-value
    extraction (which is also the RSA check), modulus scan, exponent scan, build. -/
inductive GnutlsStep
  | crt_init
  | crt_import
  | get_pk_rsa_raw
  | scan_n
  | scan_e
  | build
  deriving DecidableEq, Repr

/-- The GnuTLS steps, in order. -/
def gnutls_steps : List GnutlsStep :=
  [.crt_init, .crt_import, .get_pk_rsa_raw, .scan_n, .scan_e, .build]

/-- Whether the outcomes make a GnuTLS step fail. -/
def GnutlsStep.fails (o : GnutlsOutcomes) : GnutlsStep → Bool
  | .crt_init => decide (o.crt_init ≠ GNUTLS_E_SUCCESS)
  | .crt_import => decide (o.crt_import ≠ GNUTLS_E_SUCCESS)
  | .get_pk_rsa_raw => decide (o.get_pk_rsa_raw ≠ GNUTLS_E_SUCCESS)
  | .scan_n => decide (o.mpi_scan_n ≠ 0)
  | .scan_e => decide (o.mpi_scan_e ≠ 0)
  | .build => decide (o.sexp_build ≠ 0)

/-- The error code the source assigns when a GnuTLS step fails. -/
def GnutlsStep.error : GnutlsStep → gpg_err_code_t
  | .crt_init => GPG_ERR_ENOMEM
  | .crt_import => GPG_ERR_BAD_CERT
  | .get_pk_rsa_raw => GPG_ERR_BAD_KEY
  | .scan_n => GPG_ERR_BAD_KEY
  | .scan_e => GPG_ERR_BAD_KEY
  | .build => GPG_ERR_BAD_KEY

/-- The collaborator calls a GnuTLS step consists of. -/
def GnutlsStep.callees : GnutlsStep → List Callee
  | .crt_init => [.gnutls_x509_crt_init]
  | .crt_import => [.gnutls_x509_crt_import]
  | .get_pk_rsa_raw => [.gnutls_x509_crt_get_pk_rsa_raw]
  | .scan_n => [.gcry_mpi_scan]
  | .scan_e => [.gcry_mpi_scan]
  | .build => [.gcry_sexp_build]

/-- The steps of the OpenSSL build in source order: parse, key retrieval, RSA
    check, raw-value extraction (both `BN_bn2hex` calls), modulus scan, exponent
    scan, build. -/
inductive OpensslStep
  | d2i_X509
  | X509_get_pubkey
  | rsa_check
  | bn2hex
  | scan_n
  | scan_e
  | build
  deriving DecidableEq, Repr

/-- The OpenSSL steps, in order. -/
def openssl_steps : List OpensslStep :=
  [.d2i_X509, .X509_get_pubkey, .rsa_check, .bn2hex, .scan_n, .scan_e, .build]

/-- Whether the outcomes make an OpenSSL step fail. -/
def OpensslStep.fails (o : OpensslOutcomes) : OpensslStep → Bool
  | .d2i_X509 => !o.d2i_X509
  | .X509_get_pubkey => !o.X509_get_pubkey
  | .rsa_check => decide (o.pkey_type ≠ EVP_PKEY_RSA)
  | .bn2hex => !o.bn2hex_n || !o.bn2hex_e
  | .scan_n => decide (o.mpi_scan_n ≠ 0)
  | .scan_e => decide (o.mpi_scan_e ≠ 0)
  | .build => decide (o.sexp_build ≠ 0)

/-- The error code the source assigns when an OpenSSL step fails. -/
def OpensslStep.error : OpensslStep → gpg_err_code_t
  | .d2i_X509 => GPG_ERR_BAD_CERT
  | .X509_get_pubkey => GPG_ERR_BAD_CERT
  | .rsa_check => GPG_ERR_WRONG_PUBKEY_ALGO
  | .bn2hex => GPG_ERR_BAD_KEY
  | .scan_n => GPG_ERR_BAD_KEY
  | .scan_e => GPG_ERR_BAD_KEY
  | .build => GPG_ERR_BAD_KEY

/-- The collaborator calls an OpenSSL step consists of. -/
def OpensslStep.callees : OpensslStep → List Callee
  | .d2i_X509 => [.d2i_X509]
  | .X509_get_pubkey => [.X509_get_pubkey]
  | .rsa_check => [.pubkey_type]
  | .bn2hex => [.BN_bn2hex, .BN_bn2hex]
  | .scan_n => [.gcry_mpi_scan]
  | .scan_e => [.gcry_mpi_scan]
  | .build => [.gcry_sexp_build]

/-- Early exit, as the specification words it: the steps that run are those up
    to and including the first one that fails. -/
def steps_invoked {α : Type} (fails : α → Bool) : List α → List α
  | [] => []
  | s :: rest => if fails s then [s] else s :: steps_invoked fails rest

/-- Early exit, as the specification words it: the code returned is the one of
    the first failing step, `GPG_ERR_NO_ERROR` when none fails. -/
def early_exit_code {α : Type} (fails : α → Bool) (error : α → gpg_err_code_t) :
    List α → gpg_err_code_t
  | [] => GPG_ERR_NO_ERROR
  | s :: rest => if fails s then error s else early_exit_code fails error rest

/-- The early-exit property of one finished call against a step sequence. -/
def Result.early_exit {α : Type} (r : Result) (fails : α → Bool)
    (error : α → gpg_err_code_t) (callees : α → List Callee) (steps : List α) :
    Prop :=
  r.ret = early_exit_code fails error steps ∧
  r.heap.calls.map Event.callee = (steps_invoked fails steps).flatMap callees ∧
  handles_fed [] r.heap.trace = true

/-! ## Closed forms of the two embeddings

The result of each build written out path by path; `keyutil_get_cert_sexp_gnutls_eq`
and `keyutil_get_cert_sexp_openssl_eq` below prove them equal to the embeddings. -/

/-- The `gnutls_free` calls the cleanup makes on `m.data` and `e.data` when
    `gnutls_x509_crt_get_pk_rsa_raw` was never reached: the locals still hold
    what they held at their declaration. -/
def gnutls_stray_frees (o : GnutlsOutcomes) : List Event :=
  (if o.m_uninit.data ≠ NULL then [Event.gnutls_free o.m_uninit.data] else []) ++
    (if o.e_uninit.data ≠ NULL then [Event.gnutls_free o.e_uninit.data] else [])

/-- Whether those stray `gnutls_free` calls happen at all: each of them is given a
    value that was never acquired (or, should the stray value coincide with the
    certificate handle, makes the later `gnutls_x509_crt_deinit` a second
    release), so the heap is then marked `undefined`. -/
def gnutls_stray_undefined (o : GnutlsOutcomes) : Bool :=
  decide (o.m_uninit.data ≠ NULL ∨ o.e_uninit.data ≠ NULL)

/-- GnuTLS trace up to a successful import. -/
def gnutls_trace_import (der : Ptr) (len : Nat) : List Event :=
  [.gnutls_x509_crt_init GNUTLS_E_SUCCESS 1,
   .gnutls_x509_crt_import 1 der (size_t_to_unsigned_int len) GNUTLS_E_SUCCESS]

/-- GnuTLS trace up to a successful raw-key extraction. -/
def gnutls_trace_raw (der : Ptr) (len : Nat) : List Event :=
  gnutls_trace_import der len ++
    [.gnutls_x509_crt_get_pk_rsa_raw 1 GNUTLS_E_SUCCESS 2 3]

/-- GnuTLS cleanup of the two buffers and the certificate. -/
def gnutls_trace_cleanup : List Event :=
  [.gnutls_free 2, .gnutls_free 3, .gnutls_x509_crt_deinit 1]

/-- The result of the GnuTLS build, path by path. -/
def gnutls_paths (o : GnutlsOutcomes) (der : Ptr) (len : Nat) (p_sexp : Ptr) :
    Result :=
  if o.crt_init ≠ GNUTLS_E_SUCCESS then
    ⟨GPG_ERR_ENOMEM, p_sexp, false, ⟨0, [],
      [.gnutls_x509_crt_init o.crt_init NULL] ++ gnutls_stray_frees o,
      gnutls_stray_undefined o⟩⟩
  else if o.crt_import ≠ GNUTLS_E_SUCCESS then
    ⟨GPG_ERR_BAD_CERT, p_sexp, false, ⟨1, [],
      [.gnutls_x509_crt_init GNUTLS_E_SUCCESS 1,
       .gnutls_x509_crt_import 1 der (size_t_to_unsigned_int len) o.crt_import] ++
      gnutls_stray_frees o ++ [.gnutls_x509_crt_deinit 1],
      gnutls_stray_undefined o⟩⟩
  else if o.get_pk_rsa_raw ≠ GNUTLS_E_SUCCESS then
    ⟨GPG_ERR_BAD_KEY, p_sexp, false, ⟨1, [],
      gnutls_trace_import der len ++
      [.gnutls_x509_crt_get_pk_rsa_raw 1 o.get_pk_rsa_raw NULL NULL,
       .gnutls_x509_crt_deinit 1], false⟩⟩
  else if o.mpi_scan_n ≠ 0 then
    ⟨GPG_ERR_BAD_KEY, p_sexp, false, ⟨3, [],
      gnutls_trace_raw der len ++
      [.gcry_mpi_scan GCRYMPI_FMT_USG 2 o.m_size o.mpi_scan_n NULL] ++
      gnutls_trace_cleanup, false⟩⟩
  else if o.mpi_scan_e ≠ 0 then
    ⟨GPG_ERR_BAD_KEY, p_sexp, false, ⟨4, [],
      gnutls_trace_raw der len ++
      [.gcry_mpi_scan GCRYMPI_FMT_USG 2 o.m_size 0 4,
       .gcry_mpi_scan GCRYMPI_FMT_USG 3 o.e_size o.mpi_scan_e NULL,
       .gcry_mpi_release 4] ++
      gnutls_trace_cleanup, false⟩⟩
  else if o.sexp_build ≠ 0 then
    ⟨GPG_ERR_BAD_KEY, p_sexp, false, ⟨5, [],
      gnutls_trace_raw der len ++
      [.gcry_mpi_scan GCRYMPI_FMT_USG 2 o.m_size 0 4,
       .gcry_mpi_scan GCRYMPI_FMT_USG 3 o.e_size 0 5,
       .gcry_sexp_build sexp_template 4 5 o.sexp_build NULL,
       .gcry_mpi_release 4, .gcry_mpi_release 5] ++
      gnutls_trace_cleanup, false⟩⟩
  else
    ⟨GPG_ERR_NO_ERROR, 6, true, ⟨6, [6],
      gnutls_trace_raw der len ++
      [.gcry_mpi_scan GCRYMPI_FMT_USG 2 o.m_size 0 4,
       .gcry_mpi_scan GCRYMPI_FMT_USG 3 o.e_size 0 5,
       .gcry_sexp_build sexp_template 4 5 0 6,
       .gcry_mpi_release 4, .gcry_mpi_release 5] ++
      gnutls_trace_cleanup, false⟩⟩

/-- OpenSSL trace up to a successful RSA check. -/
def openssl_trace_type (der : Ptr) (len : Nat) : List Event :=
  [.d2i_X509 der (size_t_to_long len) 1, .X509_get_pubkey 1 2,
   .pubkey_type 2 EVP_PKEY_RSA]

/-- OpenSSL trace up to two successful hex conversions. -/
def openssl_trace_hex (der : Ptr) (len : Nat) : List Event :=
  openssl_trace_type der len ++ [.BN_bn2hex 2 .n 3, .BN_bn2hex 2 .e 4]

/-- OpenSSL cleanup of the certificate, the key and both hex strings. -/
def openssl_trace_cleanup : List Event :=
  [.X509_free 1, .EVP_PKEY_free 2, .OPENSSL_free 3, .OPENSSL_free 4]

/-- The result of the OpenSSL build, path by path. -/
def openssl_paths (o : OpensslOutcomes) (der : Ptr) (len : Nat) (p_sexp : Ptr) :
    Result :=
  if o.d2i_X509 = false then
    ⟨GPG_ERR_BAD_CERT, p_sexp, false, ⟨0, [],
      [.d2i_X509 der (size_t_to_long len) NULL], false⟩⟩
  else if o.X509_get_pubkey = false then
    ⟨GPG_ERR_BAD_CERT, p_sexp, false, ⟨1, [1],
      [.d2i_X509 der (size_t_to_long len) 1, .X509_get_pubkey 1 NULL], false⟩⟩
  else if o.pkey_type ≠ EVP_PKEY_RSA then
    ⟨GPG_ERR_WRONG_PUBKEY_ALGO, p_sexp, false, ⟨2, [],
      [.d2i_X509 der (size_t_to_long len) 1, .X509_get_pubkey 1 2,
       .pubkey_type 2 o.pkey_type, .X509_free 1, .EVP_PKEY_free 2], false⟩⟩
  else if o.bn2hex_n = false then
    if o.bn2hex_e = false then
      ⟨GPG_ERR_BAD_KEY, p_sexp, false, ⟨2, [],
        openssl_trace_type der len ++
        [.BN_bn2hex 2 .n NULL, .BN_bn2hex 2 .e NULL,
         .X509_free 1, .EVP_PKEY_free 2], false⟩⟩
    else
      ⟨GPG_ERR_BAD_KEY, p_sexp, false, ⟨3, [],
        openssl_trace_type der len ++
        [.BN_bn2hex 2 .n NULL, .BN_bn2hex 2 .e 3,
         .X509_free 1, .EVP_PKEY_free 2, .OPENSSL_free 3], false⟩⟩
  else if o.bn2hex_e = false then
    ⟨GPG_ERR_BAD_KEY, p_sexp, false, ⟨3, [],
      openssl_trace_type der len ++
      [.BN_bn2hex 2 .n 3, .BN_bn2hex 2 .e NULL,
       .X509_free 1, .EVP_PKEY_free 2, .OPENSSL_free 3], false⟩⟩
  else if o.mpi_scan_n ≠ 0 then
    ⟨GPG_ERR_BAD_KEY, p_sexp, false, ⟨4, [],
      openssl_trace_hex der len ++
      [.gcry_mpi_scan GCRYMPI_FMT_HEX 3 0 o.mpi_scan_n NULL] ++
      openssl_trace_cleanup, false⟩⟩
  else if o.mpi_scan_e ≠ 0 then
    ⟨GPG_ERR_BAD_KEY, p_sexp, false, ⟨5, [],
      openssl_trace_hex der len ++
      [.gcry_mpi_scan GCRYMPI_FMT_HEX 3 0 0 5,
       .gcry_mpi_scan GCRYMPI_FMT_HEX 4 0 o.mpi_scan_e NULL,
       .gcry_mpi_release 5] ++
      openssl_trace_cleanup, false⟩⟩
  else if o.sexp_build ≠ 0 then
    ⟨GPG_ERR_BAD_KEY, p_sexp, false, ⟨6, [],
      openssl_trace_hex der len ++
      [.gcry_mpi_scan GCRYMPI_FMT_HEX 3 0 0 5,
       .gcry_mpi_scan GCRYMPI_FMT_HEX 4 0 0 6,
       .gcry_sexp_build sexp_template 5 6 o.sexp_build NULL,
       .gcry_mpi_release 5, .gcry_mpi_release 6] ++
      openssl_trace_cleanup, false⟩⟩
  else
    ⟨GPG_ERR_NO_ERROR, 7, true, ⟨7, [7],
      openssl_trace_hex der len ++
      [.gcry_mpi_scan GCRYMPI_FMT_HEX 3 0 0 5,
       .gcry_mpi_scan GCRYMPI_FMT_HEX 4 0 0 6,
       .gcry_sexp_build sexp_template 5 6 0 7,
       .gcry_mpi_release 5, .gcry_mpi_release 6] ++
      openssl_trace_cleanup, false⟩⟩

/-! ## Symbolic execution of both builds -/

/-- Erasing stray values and then the certificate from `[cert]` leaves nothing. -/
theorem erase_stray (a b : Ptr) : (([1].erase a).erase b).erase 1 = [] := by
  by_cases ha : a = 1
  · subst ha; simp
  · have h1 : [1].erase a = [1] :=
      List.erase_of_not_mem (by simpa using ha)
    rw [h1]
    by_cases hb : b = 1
    · subst hb; simp
    · have h2 : [1].erase b = [1] :=
        List.erase_of_not_mem (by simpa using hb)
      rw [h2]; simp

/-- The GnuTLS embedding equals its closed form. -/
theorem keyutil_get_cert_sexp_gnutls_eq (o : GnutlsOutcomes) (der : Ptr)
    (len : Nat) (p_sexp : Ptr) :
    keyutil_get_cert_sexp_gnutls o der len p_sexp = gnutls_paths o der len p_sexp := by
  unfold gnutls_paths gnutls_stray_frees gnutls_stray_undefined gnutls_trace_raw
    gnutls_trace_import gnutls_trace_cleanup
  by_cases h1 : o.crt_init = 0
  · by_cases h2 : o.crt_import = 0
    · by_cases h3 : o.get_pk_rsa_raw = 0
      · by_cases h4 : o.mpi_scan_n = 0
        · by_cases h5 : o.mpi_scan_e = 0
          · by_cases h6 : o.sexp_build = 0 <;>
            simp [keyutil_get_cert_sexp_gnutls, gnutls_entry, gnutls_block_init,
              gnutls_block_import, gnutls_block_rsa_raw, gnutls_block_scan,
              gnutls_block_build, gnutls_block_store, gnutls_block_release_mpi,
              gnutls_block_release_cert, gnutls_block_release_sexp,
              gnutls_x509_crt_init, gnutls_x509_crt_import,
              gnutls_x509_crt_get_pk_rsa_raw, gcry_mpi_scan, gcry_sexp_build, release,
              Heap.alloc, Heap.log, Heap.free, Heap.empty, GPG_ERR_NO_ERROR,
              GPG_ERR_BAD_KEY, GPG_ERR_BAD_CERT, GPG_ERR_ENOMEM, GNUTLS_E_SUCCESS, NULL,
              h1, h2, h3, h4, h5, h6]
          · simp [keyutil_get_cert_sexp_gnutls, gnutls_entry, gnutls_block_init,
              gnutls_block_import, gnutls_block_rsa_raw, gnutls_block_scan,
              gnutls_block_build, gnutls_block_store, gnutls_block_release_mpi,
              gnutls_block_release_cert, gnutls_block_release_sexp,
              gnutls_x509_crt_init, gnutls_x509_crt_import,
              gnutls_x509_crt_get_pk_rsa_raw, gcry_mpi_scan, gcry_sexp_build, release,
              Heap.alloc, Heap.log, Heap.free, Heap.empty, GPG_ERR_NO_ERROR,
              GPG_ERR_BAD_KEY, GPG_ERR_BAD_CERT, GPG_ERR_ENOMEM, GNUTLS_E_SUCCESS, NULL,
              h1, h2, h3, h4, h5]
        · simp [keyutil_get_cert_sexp_gnutls, gnutls_entry, gnutls_block_init,
            gnutls_block_import, gnutls_block_rsa_raw, gnutls_block_scan,
            gnutls_block_build, gnutls_block_store, gnutls_block_release_mpi,
            gnutls_block_release_cert, gnutls_block_release_sexp,
            gnutls_x509_crt_init, gnutls_x509_crt_import,
            gnutls_x509_crt_get_pk_rsa_raw, gcry_mpi_scan, gcry_sexp_build, release,
            Heap.alloc, Heap.log, Heap.free, Heap.empty, GPG_ERR_NO_ERROR,
            GPG_ERR_BAD_KEY, GPG_ERR_BAD_CERT, GPG_ERR_ENOMEM, GNUTLS_E_SUCCESS, NULL,
            h1, h2, h3, h4]
      · simp [keyutil_get_cert_sexp_gnutls, gnutls_entry, gnutls_block_init,
          gnutls_block_import, gnutls_block_rsa_raw, gnutls_block_scan,
          gnutls_block_build, gnutls_block_store, gnutls_block_release_mpi,
          gnutls_block_release_cert, gnutls_block_release_sexp,
          gnutls_x509_crt_init, gnutls_x509_crt_import,
          gnutls_x509_crt_get_pk_rsa_raw, gcry_mpi_scan, gcry_sexp_build, release,
          Heap.alloc, Heap.log, Heap.free, Heap.empty, GPG_ERR_NO_ERROR,
          GPG_ERR_BAD_KEY, GPG_ERR_BAD_CERT, GPG_ERR_ENOMEM, GNUTLS_E_SUCCESS, NULL,
          h1, h2, h3]
    · by_cases hm : o.m_uninit.data = 0 <;> by_cases he : o.e_uninit.data = 0 <;>
      by_cases hm1 : o.m_uninit.data = 1 <;> by_cases he1 : o.e_uninit.data = 1 <;>
      simp [keyutil_get_cert_sexp_gnutls, gnutls_entry, gnutls_block_init,
        gnutls_block_import, gnutls_block_rsa_raw, gnutls_block_scan,
        gnutls_block_build, gnutls_block_store, gnutls_block_release_mpi,
        gnutls_block_release_cert, gnutls_block_release_sexp,
        gnutls_x509_crt_init, gnutls_x509_crt_import,
        gnutls_x509_crt_get_pk_rsa_raw, gcry_mpi_scan, gcry_sexp_build, release,
        Heap.alloc, Heap.log, Heap.free, Heap.empty, GPG_ERR_NO_ERROR,
        GPG_ERR_BAD_KEY, GPG_ERR_BAD_CERT, GPG_ERR_ENOMEM, GNUTLS_E_SUCCESS, NULL,
        h1, h2, hm, he, hm1, he1, List.erase_cons,
        show (1 = o.m_uninit.data) ↔ (o.m_uninit.data = 1) from eq_comm,
        show (1 = o.e_uninit.data) ↔ (o.e_uninit.data = 1) from eq_comm]
  · by_cases hm : o.m_uninit.data = 0 <;> by_cases he : o.e_uninit.data = 0 <;>
    simp [keyutil_get_cert_sexp_gnutls, gnutls_entry, gnutls_block_init,
      gnutls_block_import, gnutls_block_rsa_raw, gnutls_block_scan,
      gnutls_block_build, gnutls_block_store, gnutls_block_release_mpi,
      gnutls_block_release_cert, gnutls_block_release_sexp,
      gnutls_x509_crt_init, gnutls_x509_crt_import,
      gnutls_x509_crt_get_pk_rsa_raw, gcry_mpi_scan, gcry_sexp_build, release,
      Heap.alloc, Heap.log, Heap.free, Heap.empty, GPG_ERR_NO_ERROR,
      GPG_ERR_BAD_KEY, GPG_ERR_BAD_CERT, GPG_ERR_ENOMEM, GNUTLS_E_SUCCESS, NULL,
      h1, hm, he]

/-- The OpenSSL embedding equals its closed form. -/
theorem keyutil_get_cert_sexp_openssl_eq (o : OpensslOutcomes) (der : Ptr)
    (len : Nat) (p_sexp : Ptr) :
    keyutil_get_cert_sexp_openssl o der len p_sexp = openssl_paths o der len p_sexp := by
  unfold openssl_paths openssl_trace_hex openssl_trace_type openssl_trace_cleanup
  by_cases h1 : o.d2i_X509 = true
  · by_cases h2 : o.X509_get_pubkey = true
    · by_cases h3 : o.pkey_type = 6
      · by_cases h4 : o.bn2hex_n = true
        · by_cases h5 : o.bn2hex_e = true
          · by_cases h6 : o.mpi_scan_n = 0
            · by_cases h7 : o.mpi_scan_e = 0
              · by_cases h8 : o.sexp_build = 0 <;>
                simp [keyutil_get_cert_sexp_openssl, openssl_entry, openssl_block_d2i,
                  openssl_block_pubkey, openssl_block_type, openssl_block_bn2hex,
                  openssl_block_scan, openssl_block_build, openssl_block_store,
                  openssl_block_release_mpi, openssl_block_release_cert,
                  openssl_block_release_sexp, d2i_X509, X509_get_pubkey, pubkey_type, BN_bn2hex,
                  gcry_mpi_scan, gcry_sexp_build, release, Heap.alloc, Heap.log, Heap.free,
                  Heap.empty, GPG_ERR_NO_ERROR, GPG_ERR_BAD_KEY, GPG_ERR_BAD_CERT,
                  GPG_ERR_WRONG_PUBKEY_ALGO, EVP_PKEY_RSA, NULL, h1, h2, h3, h4, h5, h6, h7, h8]
              · simp [keyutil_get_cert_sexp_openssl, openssl_entry, openssl_block_d2i,
                  openssl_block_pubkey, openssl_block_type, openssl_block_bn2hex,
                  openssl_block_scan, openssl_block_build, openssl_block_store,
                  openssl_block_release_mpi, openssl_block_release_cert,
                  openssl_block_release_sexp, d2i_X509, X509_get_pubkey, pubkey_type, BN_bn2hex,
                  gcry_mpi_scan, gcry_sexp_build, release, Heap.alloc, Heap.log, Heap.free,
                  Heap.empty, GPG_ERR_NO_ERROR, GPG_ERR_BAD_KEY, GPG_ERR_BAD_CERT,
                  GPG_ERR_WRONG_PUBKEY_ALGO, EVP_PKEY_RSA, NULL, h1, h2, h3, h4, h5, h6, h7]
            · simp [keyutil_get_cert_sexp_openssl, openssl_entry, openssl_block_d2i,
                openssl_block_pubkey, openssl_block_type, openssl_block_bn2hex,
                openssl_block_scan, openssl_block_build, openssl_block_store,
                openssl_block_release_mpi, openssl_block_release_cert,
                openssl_block_release_sexp, d2i_X509, X509_get_pubkey, pubkey_type, BN_bn2hex,
                gcry_mpi_scan, gcry_sexp_build, release, Heap.alloc, Heap.log, Heap.free,
                Heap.empty, GPG_ERR_NO_ERROR, GPG_ERR_BAD_KEY, GPG_ERR_BAD_CERT,
                GPG_ERR_WRONG_PUBKEY_ALGO, EVP_PKEY_RSA, NULL, h1, h2, h3, h4, h5, h6]
          · simp [keyutil_get_cert_sexp_openssl, openssl_entry, openssl_block_d2i,
              openssl_block_pubkey, openssl_block_type, openssl_block_bn2hex,
              openssl_block_scan, openssl_block_build, openssl_block_store,
              openssl_block_release_mpi, openssl_block_release_cert,
              openssl_block_release_sexp, d2i_X509, X509_get_pubkey, pubkey_type, BN_bn2hex,
              gcry_mpi_scan, gcry_sexp_build, release, Heap.alloc, Heap.log, Heap.free,
              Heap.empty, GPG_ERR_NO_ERROR, GPG_ERR_BAD_KEY, GPG_ERR_BAD_CERT,
              GPG_ERR_WRONG_PUBKEY_ALGO, EVP_PKEY_RSA, NULL, h1, h2, h3, h4, h5]
        · by_cases h5 : o.bn2hex_e = true <;>
          simp [keyutil_get_cert_sexp_openssl, openssl_entry, openssl_block_d2i,
            openssl_block_pubkey, openssl_block_type, openssl_block_bn2hex,
            openssl_block_scan, openssl_block_build, openssl_block_store,
            openssl_block_release_mpi, openssl_block_release_cert,
            openssl_block_release_sexp, d2i_X509, X509_get_pubkey, pubkey_type, BN_bn2hex,
            gcry_mpi_scan, gcry_sexp_build, release, Heap.alloc, Heap.log, Heap.free,
            Heap.empty, GPG_ERR_NO_ERROR, GPG_ERR_BAD_KEY, GPG_ERR_BAD_CERT,
            GPG_ERR_WRONG_PUBKEY_ALGO, EVP_PKEY_RSA, NULL, h1, h2, h3, h4, h5]
      · simp [keyutil_get_cert_sexp_openssl, openssl_entry, openssl_block_d2i,
          openssl_block_pubkey, openssl_block_type, openssl_block_bn2hex,
          openssl_block_scan, openssl_block_build, openssl_block_store,
          openssl_block_release_mpi, openssl_block_release_cert,
          openssl_block_release_sexp, d2i_X509, X509_get_pubkey, pubkey_type, BN_bn2hex,
          gcry_mpi_scan, gcry_sexp_build, release, Heap.alloc, Heap.log, Heap.free,
          Heap.empty, GPG_ERR_NO_ERROR, GPG_ERR_BAD_KEY, GPG_ERR_BAD_CERT,
          GPG_ERR_WRONG_PUBKEY_ALGO, EVP_PKEY_RSA, NULL, h1, h2, h3]
    · simp [keyutil_get_cert_sexp_openssl, openssl_entry, openssl_block_d2i,
        openssl_block_pubkey, openssl_block_type, openssl_block_bn2hex,
        openssl_block_scan, openssl_block_build, openssl_block_store,
        openssl_block_release_mpi, openssl_block_release_cert,
        openssl_block_release_sexp, d2i_X509, X509_get_pubkey, pubkey_type, BN_bn2hex,
        gcry_mpi_scan, gcry_sexp_build, release, Heap.alloc, Heap.log, Heap.free,
        Heap.empty, GPG_ERR_NO_ERROR, GPG_ERR_BAD_KEY, GPG_ERR_BAD_CERT,
        GPG_ERR_WRONG_PUBKEY_ALGO, EVP_PKEY_RSA, NULL, h1, h2]
  · simp [keyutil_get_cert_sexp_openssl, openssl_entry, openssl_block_d2i,
      openssl_block_pubkey, openssl_block_type, openssl_block_bn2hex,
      openssl_block_scan, openssl_block_build, openssl_block_store,
      openssl_block_release_mpi, openssl_block_release_cert,
      openssl_block_release_sexp, d2i_X509, X509_get_pubkey, pubkey_type, BN_bn2hex,
      gcry_mpi_scan, gcry_sexp_build, release, Heap.alloc, Heap.log, Heap.free,
      Heap.empty, GPG_ERR_NO_ERROR, GPG_ERR_BAD_KEY, GPG_ERR_BAD_CERT,
      GPG_ERR_WRONG_PUBKEY_ALGO, EVP_PKEY_RSA, NULL, h1]

/-- The OpenSSL build never gives a releasing call a handle that is not live. -/
theorem keyutil_get_cert_sexp_openssl_returns (o : OpensslOutcomes) (der : Ptr)
    (len : Nat) (p_sexp : Ptr) :
    (keyutil_get_cert_sexp_openssl o der len p_sexp).returns := by
  rw [keyutil_get_cert_sexp_openssl_eq]
  generalize hr : openssl_paths o der len p_sexp = r
  unfold openssl_paths at hr
  split_ifs at hr <;> subst hr <;> rfl

/-- The GnuTLS build gives a releasing call a handle that is not live exactly
    when init or import fails while `m.data` or `e.data`, never initialised, is
    not `NULL`. -/
theorem keyutil_get_cert_sexp_gnutls_returns (o : GnutlsOutcomes) (der : Ptr)
    (len : Nat) (p_sexp : Ptr) :
    (keyutil_get_cert_sexp_gnutls o der len p_sexp).returns ↔
      (o.crt_init = GNUTLS_E_SUCCESS ∧ o.crt_import = GNUTLS_E_SUCCESS) ∨
      (o.m_uninit.data = NULL ∧ o.e_uninit.data = NULL) := by
  rw [keyutil_get_cert_sexp_gnutls_eq]
  generalize hr : gnutls_paths o der len p_sexp = r
  unfold gnutls_paths at hr
  split_ifs at hr <;> subst hr <;>
  simp_all [Result.returns, gnutls_stray_undefined]

/-! ## The claims -/

/-- C1 (leak-freedom).  The GnuTLS build never leaks.  The OpenSSL build leaks
    exactly when the certificate parses and `X509_get_pubkey` returns `NULL`: the
    `return` of line 122 leaves with the parsed certificate (handle 1) still live
    and no `X509_free` in the trace. -/
theorem keyutil_get_cert_sexp_leak :
    (∀ (o : GnutlsOutcomes) (der : Ptr) (len : Nat) (p : Ptr),
      (keyutil_get_cert_sexp_gnutls o der len p).leak_free) ∧
    (∀ (o : OpensslOutcomes) (der : Ptr) (len : Nat) (p : Ptr),
      (keyutil_get_cert_sexp_openssl o der len p).leak_free ↔
        ¬ (o.d2i_X509 = true ∧ o.X509_get_pubkey = false)) ∧
    (∀ (o : OpensslOutcomes) (der : Ptr) (len : Nat) (p : Ptr),
      o.d2i_X509 = true → o.X509_get_pubkey = false →
      keyutil_get_cert_sexp_openssl o der len p =
        ⟨GPG_ERR_BAD_CERT, p, false,
          ⟨1, [1], [.d2i_X509 der (size_t_to_long len) 1, .X509_get_pubkey 1 NULL],
            false⟩⟩) := by
  refine ⟨?_, ?_, ?_⟩
  · intro o der len p
    rw [keyutil_get_cert_sexp_gnutls_eq]
    generalize hr : gnutls_paths o der len p = r
    unfold gnutls_paths at hr
    split_ifs at hr <;> subst hr <;>
    simp [Result.leak_free, GPG_ERR_NO_ERROR, GPG_ERR_BAD_KEY, GPG_ERR_BAD_CERT,
      GPG_ERR_ENOMEM]
  · intro o der len p
    rw [keyutil_get_cert_sexp_openssl_eq]
    generalize hr : openssl_paths o der len p = r
    unfold openssl_paths at hr
    split_ifs at hr <;> subst hr <;>
    simp_all [Result.leak_free, GPG_ERR_NO_ERROR, GPG_ERR_BAD_KEY, GPG_ERR_BAD_CERT,
      GPG_ERR_WRONG_PUBKEY_ALGO]
  · intro o der len p h1 h2
    rw [keyutil_get_cert_sexp_openssl_eq]
    simp [openssl_paths, h1, h2]

/-- C1 at a concrete input: the certificate parses, the key descriptor is `NULL`. -/
theorem keyutil_get_cert_sexp_leak_witness :
    keyutil_get_cert_sexp_openssl ⟨true, false, 6, true, true, 0, 0, 0⟩ 1000 10 0 =
      ⟨GPG_ERR_BAD_CERT, 0, false,
        ⟨1, [1], [.d2i_X509 1000 10 1, .X509_get_pubkey 1 NULL], false⟩⟩ :=
  keyutil_get_cert_sexp_leak.2.2 ⟨true, false, 6, true, true, 0, 0, 0⟩ 1000 10 0 rfl rfl

/-- C2 (release discipline).  The OpenSSL build always keeps the discipline, and
    so does the GnuTLS build once `gnutls_x509_crt_get_pk_rsa_raw` is reached.
    When `gnutls_x509_crt_init` or `gnutls_x509_crt_import` fails, the cleanup
    tests `m.data` and `e.data` as they were declared (never assigned) and hands
    every non-null one to `gnutls_free`: the discipline holds only if both
    happened to be `NULL`. -/
theorem keyutil_get_cert_sexp_release :
    (∀ (o : OpensslOutcomes) (der : Ptr) (len : Nat) (p : Ptr),
      (keyutil_get_cert_sexp_openssl o der len p).release_discipline) ∧
    (∀ (o : GnutlsOutcomes) (der : Ptr) (len : Nat) (p : Ptr),
      o.crt_init = GNUTLS_E_SUCCESS → o.crt_import = GNUTLS_E_SUCCESS →
      (keyutil_get_cert_sexp_gnutls o der len p).release_discipline) ∧
    (∀ (o : GnutlsOutcomes) (der : Ptr) (len : Nat) (p : Ptr),
      o.crt_init ≠ GNUTLS_E_SUCCESS ∨ o.crt_import ≠ GNUTLS_E_SUCCESS →
      ((keyutil_get_cert_sexp_gnutls o der len p).release_discipline ↔
        o.m_uninit.data = NULL ∧ o.e_uninit.data = NULL) ∧
      (o.m_uninit.data ≠ NULL → Event.gnutls_free o.m_uninit.data ∈
        (keyutil_get_cert_sexp_gnutls o der len p).heap.trace) ∧
      (o.e_uninit.data ≠ NULL → Event.gnutls_free o.e_uninit.data ∈
        (keyutil_get_cert_sexp_gnutls o der len p).heap.trace)) := by
  refine ⟨?_, ?_, ?_⟩
  · intro o der len p
    rw [keyutil_get_cert_sexp_openssl_eq]
    generalize hr : openssl_paths o der len p = r
    unfold openssl_paths at hr
    split_ifs at hr <;> subst hr <;>
    simp [Result.release_discipline, Heap.released, Heap.acquired, Event.released,
      Event.acquired, openssl_trace_hex, openssl_trace_type, openssl_trace_cleanup,
      NULL, GPG_ERR_NO_ERROR, GPG_ERR_BAD_KEY, GPG_ERR_BAD_CERT,
      GPG_ERR_WRONG_PUBKEY_ALGO]
  · intro o der len p h1 h2
    rw [keyutil_get_cert_sexp_gnutls_eq]
    generalize hr : gnutls_paths o der len p = r
    unfold gnutls_paths at hr
    rw [if_neg (not_not.mpr h1), if_neg (not_not.mpr h2)] at hr
    split_ifs at hr <;> subst hr <;>
    simp [Result.release_discipline, Heap.released, Heap.acquired, Event.released,
      Event.acquired, gnutls_trace_raw, gnutls_trace_import, gnutls_trace_cleanup,
      NULL, GPG_ERR_NO_ERROR, GPG_ERR_BAD_KEY, GPG_ERR_BAD_CERT, GPG_ERR_ENOMEM]
  · intro o der len p h
    rw [keyutil_get_cert_sexp_gnutls_eq]
    by_cases h1 : o.crt_init = GNUTLS_E_SUCCESS
    · have h2 : o.crt_import ≠ GNUTLS_E_SUCCESS := by
        rcases h with h | h
        · exact absurd h1 h
        · exact h
      by_cases hm : o.m_uninit.data = 0 <;> by_cases he : o.e_uninit.data = 0 <;>
      by_cases hm1 : o.m_uninit.data = 1 <;> by_cases he1 : o.e_uninit.data = 1 <;>
      simp [gnutls_paths, gnutls_stray_frees, h1, h2, hm, he, hm1, he1,
        Result.release_discipline, Heap.released, Heap.acquired, Event.released,
        Event.acquired, NULL, GPG_ERR_NO_ERROR, GPG_ERR_BAD_CERT,
        show (1 = o.m_uninit.data) ↔ (o.m_uninit.data = 1) from eq_comm,
        show (1 = o.e_uninit.data) ↔ (o.e_uninit.data = 1) from eq_comm]
    · by_cases hm : o.m_uninit.data = 0 <;> by_cases he : o.e_uninit.data = 0 <;>
      simp [gnutls_paths, gnutls_stray_frees, h1, hm, he,
        Result.release_discipline, Heap.released, Heap.acquired, Event.released,
        Event.acquired, NULL, GPG_ERR_NO_ERROR, GPG_ERR_ENOMEM]
      intro hh
      exact absurd rfl (hh o.m_uninit.data).1

/-- C2 at a concrete input: the import rejects the bytes while `m.data` and
    `e.data` hold the stray values 77 and 88; both are passed to `gnutls_free`. -/
theorem keyutil_get_cert_sexp_release_witness :
    keyutil_get_cert_sexp_gnutls
        ⟨0, -69, 0, 256, 3, 0, 0, 0, ⟨77, 5⟩, ⟨88, 6⟩⟩ 1000 10 0 =
      ⟨GPG_ERR_BAD_CERT, 0, false, ⟨1, [],
        [.gnutls_x509_crt_init 0 1, .gnutls_x509_crt_import 1 1000 10 (-69),
         .gnutls_free 77, .gnutls_free 88, .gnutls_x509_crt_deinit 1], true⟩⟩ ∧
    ¬ (keyutil_get_cert_sexp_gnutls
        ⟨0, -69, 0, 256, 3, 0, 0, 0, ⟨77, 5⟩, ⟨88, 6⟩⟩ 1000 10 0).release_discipline :=
  ⟨by decide, fun hd =>
    absurd (((keyutil_get_cert_sexp_release.2.2
      ⟨0, -69, 0, 256, 3, 0, 0, 0, ⟨77, 5⟩, ⟨88, 6⟩⟩ 1000 10 0
      (Or.inr (by decide))).1.mp hd).1) (by decide)⟩

/-- C3 (non-RSA key).  On the OpenSSL build a key whose type is not RSA gives
    `GPG_ERR_WRONG_PUBKEY_ALGO`.  On the GnuTLS build the only RSA test is the
    raw-key extraction itself, and its failure gives `GPG_ERR_BAD_KEY`. -/
theorem keyutil_get_cert_sexp_non_rsa :
    (∀ (o : OpensslOutcomes) (der : Ptr) (len : Nat) (p : Ptr),
      o.d2i_X509 = true → o.X509_get_pubkey = true → o.pkey_type ≠ EVP_PKEY_RSA →
      (keyutil_get_cert_sexp_openssl o der len p).ret = GPG_ERR_WRONG_PUBKEY_ALGO) ∧
    (∀ (o : GnutlsOutcomes) (der : Ptr) (len : Nat) (p : Ptr),
      o.crt_init = GNUTLS_E_SUCCESS → o.crt_import = GNUTLS_E_SUCCESS →
      o.get_pk_rsa_raw ≠ GNUTLS_E_SUCCESS →
      (keyutil_get_cert_sexp_gnutls o der len p).ret = GPG_ERR_BAD_KEY ∧
      (keyutil_get_cert_sexp_gnutls o der len p).ret ≠ GPG_ERR_WRONG_PUBKEY_ALGO) := by
  refine ⟨?_, ?_⟩
  · intro o der len p h1 h2 h3
    rw [keyutil_get_cert_sexp_openssl_eq]
    simp [openssl_paths, h1, h2, h3]
  · intro o der len p h1 h2 h3
    rw [keyutil_get_cert_sexp_gnutls_eq]
    simp [gnutls_paths, h1, h2, h3, GPG_ERR_BAD_KEY, GPG_ERR_WRONG_PUBKEY_ALGO]

/-- C3 at a concrete input: a certificate that imports, whose raw RSA extraction
    is refused (return code -50), yields 19, not 41. -/
theorem keyutil_get_cert_sexp_non_rsa_witness :
    (keyutil_get_cert_sexp_gnutls
      ⟨0, 0, -50, 0, 0, 0, 0, 0, ⟨0, 0⟩, ⟨0, 0⟩⟩ 1000 10 0).ret = 19 ∧
    (keyutil_get_cert_sexp_gnutls
      ⟨0, 0, -50, 0, 0, 0, 0, 0, ⟨0, 0⟩, ⟨0, 0⟩⟩ 1000 10 0).ret ≠ 41 :=
  keyutil_get_cert_sexp_non_rsa.2 ⟨0, 0, -50, 0, 0, 0, 0, 0, ⟨0, 0⟩, ⟨0, 0⟩⟩ 1000 10 0
    rfl rfl (by decide)

/-- C4 (no partial output).  On both builds and for every outcome: an error
    return leaves `*p_sexp` unassigned, holding what it held on entry; a
    `GPG_ERR_NO_ERROR` return has assigned it the S-expression that
    `gcry_sexp_build` produced; the slot is assigned exactly when the return
    value is `GPG_ERR_NO_ERROR`. -/
theorem keyutil_get_cert_sexp_no_partial_output (der : Ptr) (len : Nat) (p : Ptr) :
    (∀ o : GnutlsOutcomes,
      (keyutil_get_cert_sexp_gnutls o der len p).no_partial_output p) ∧
    (∀ o : OpensslOutcomes,
      (keyutil_get_cert_sexp_openssl o der len p).no_partial_output p) := by
  refine ⟨?_, ?_⟩
  · intro o
    rw [keyutil_get_cert_sexp_gnutls_eq]
    generalize hr : gnutls_paths o der len p = r
    unfold gnutls_paths at hr
    split_ifs at hr <;> subst hr <;>
    simp [Result.no_partial_output, NULL, GPG_ERR_NO_ERROR, GPG_ERR_BAD_KEY,
      GPG_ERR_BAD_CERT, GPG_ERR_ENOMEM]
    exact ⟨4, 5, Or.inr (Or.inl ⟨rfl, rfl⟩)⟩
  · intro o
    rw [keyutil_get_cert_sexp_openssl_eq]
    generalize hr : openssl_paths o der len p = r
    unfold openssl_paths at hr
    split_ifs at hr <;> subst hr <;>
    simp [Result.no_partial_output, NULL, GPG_ERR_NO_ERROR, GPG_ERR_BAD_KEY,
      GPG_ERR_BAD_CERT, GPG_ERR_WRONG_PUBKEY_ALGO]
    exact ⟨5, 6, Or.inr (Or.inl ⟨rfl, rfl⟩)⟩

/-- C5 (rejected DER).  On the OpenSSL build a `NULL` from `d2i_X509` makes the
    function return `GPG_ERR_BAD_CERT` after that single call.  On the GnuTLS
    build, when the import fails after a successful init, the calls before the
    cleanup are exactly init and import (no key retrieval, no scan, no build),
    but the cleanup then hands every non-null never-initialised `m.data`,
    `e.data` to `gnutls_free`: the call comes back to the caller, with
    `GPG_ERR_BAD_CERT`, exactly when both happened to be `NULL`. -/
theorem keyutil_get_cert_sexp_bad_cert :
    (∀ (o : GnutlsOutcomes) (der : Ptr) (len : Nat) (p : Ptr),
      o.crt_init = GNUTLS_E_SUCCESS → o.crt_import ≠ GNUTLS_E_SUCCESS →
      ((keyutil_get_cert_sexp_gnutls o der len p).returns ↔
        o.m_uninit.data = NULL ∧ o.e_uninit.data = NULL) ∧
      (o.m_uninit.data = NULL ∧ o.e_uninit.data = NULL →
        (keyutil_get_cert_sexp_gnutls o der len p).ret = GPG_ERR_BAD_CERT) ∧
      (keyutil_get_cert_sexp_gnutls o der len p).heap.calls =
        [.gnutls_x509_crt_init GNUTLS_E_SUCCESS 1,
         .gnutls_x509_crt_import 1 der (size_t_to_unsigned_int len) o.crt_import]) ∧
    (∀ (o : OpensslOutcomes) (der : Ptr) (len : Nat) (p : Ptr),
      o.d2i_X509 = false →
      (keyutil_get_cert_sexp_openssl o der len p).returns ∧
      (keyutil_get_cert_sexp_openssl o der len p).ret = GPG_ERR_BAD_CERT ∧
      (keyutil_get_cert_sexp_openssl o der len p).heap.calls =
        [.d2i_X509 der (size_t_to_long len) NULL]) := by
  refine ⟨?_, ?_⟩
  · intro o der len p h1 h2
    rw [keyutil_get_cert_sexp_gnutls_eq]
    by_cases hm : o.m_uninit.data = 0 <;> by_cases he : o.e_uninit.data = 0 <;>
    simp [gnutls_paths, gnutls_stray_frees, gnutls_stray_undefined, Result.returns,
      Heap.calls, Event.released, h1, h2, hm, he, NULL]
  · intro o der len p h1
    rw [keyutil_get_cert_sexp_openssl_eq]
    simp [openssl_paths, Result.returns, Heap.calls, Event.released, h1]

/-- C5 at concrete inputs.  GnuTLS: the import rejects the bytes while `m.data`
    holds the stray value 77, and the call does not come back.  OpenSSL:
    `d2i_X509` rejects the bytes and the call returns `GPG_ERR_BAD_CERT`. -/
theorem keyutil_get_cert_sexp_bad_cert_witness :
    ¬ (keyutil_get_cert_sexp_gnutls
        ⟨0, -69, 0, 0, 0, 0, 0, 0, ⟨77, 5⟩, ⟨0, 0⟩⟩ 1000 10 0).returns ∧
    ((keyutil_get_cert_sexp_openssl
        ⟨false, true, 6, true, true, 0, 0, 0⟩ 1000 10 0).returns ∧
      (keyutil_get_cert_sexp_openssl
        ⟨false, true, 6, true, true, 0, 0, 0⟩ 1000 10 0).ret = GPG_ERR_BAD_CERT ∧
      (keyutil_get_cert_sexp_openssl
        ⟨false, true, 6, true, true, 0, 0, 0⟩ 1000 10 0).heap.calls =
        [.d2i_X509 1000 10 NULL]) :=
  ⟨fun hr =>
    absurd (((keyutil_get_cert_sexp_bad_cert.1
      ⟨0, -69, 0, 0, 0, 0, 0, 0, ⟨77, 5⟩, ⟨0, 0⟩⟩ 1000 10 0 rfl (by decide)).1.mp hr).1)
      (by decide),
   keyutil_get_cert_sexp_bad_cert.2 ⟨false, true, 6, true, true, 0, 0, 0⟩ 1000 10 0 rfl⟩

/-- C6 (success).  When every collaborator succeeds the function returns
    `GPG_ERR_NO_ERROR` and `*p_sexp` is the handle `gcry_sexp_build` produced from
    the template `(public-key (rsa (n %m) (e %m)))`, its first argument the
    integer scanned from the modulus and its second the integer scanned from the
    exponent: `GCRYMPI_FMT_USG` over the raw buffers with their sizes on GnuTLS,
    `GCRYMPI_FMT_HEX` with length 0 over the `BN_bn2hex` strings on OpenSSL. -/
theorem keyutil_get_cert_sexp_success :
    (∀ (o : GnutlsOutcomes) (der : Ptr) (len : Nat) (p : Ptr),
      o.crt_init = GNUTLS_E_SUCCESS → o.crt_import = GNUTLS_E_SUCCESS →
      o.get_pk_rsa_raw = GNUTLS_E_SUCCESS → o.mpi_scan_n = 0 → o.mpi_scan_e = 0 →
      o.sexp_build = 0 →
      (keyutil_get_cert_sexp_gnutls o der len p).ret = GPG_ERR_NO_ERROR ∧
      (keyutil_get_cert_sexp_gnutls o der len p).p_sexp = 6 ∧
      (keyutil_get_cert_sexp_gnutls o der len p).heap.calls =
        [.gnutls_x509_crt_init GNUTLS_E_SUCCESS 1,
         .gnutls_x509_crt_import 1 der (size_t_to_unsigned_int len) GNUTLS_E_SUCCESS,
         .gnutls_x509_crt_get_pk_rsa_raw 1 GNUTLS_E_SUCCESS 2 3,
         .gcry_mpi_scan GCRYMPI_FMT_USG 2 o.m_size 0 4,
         .gcry_mpi_scan GCRYMPI_FMT_USG 3 o.e_size 0 5,
         .gcry_sexp_build "(public-key (rsa (n %m) (e %m)))" 4 5 0 6]) ∧
    (∀ (o : OpensslOutcomes) (der : Ptr) (len : Nat) (p : Ptr),
      o.d2i_X509 = true → o.X509_get_pubkey = true → o.pkey_type = EVP_PKEY_RSA →
      o.bn2hex_n = true → o.bn2hex_e = true → o.mpi_scan_n = 0 → o.mpi_scan_e = 0 →
      o.sexp_build = 0 →
      (keyutil_get_cert_sexp_openssl o der len p).ret = GPG_ERR_NO_ERROR ∧
      (keyutil_get_cert_sexp_openssl o der len p).p_sexp = 7 ∧
      (keyutil_get_cert_sexp_openssl o der len p).heap.calls =
        [.d2i_X509 der (size_t_to_long len) 1, .X509_get_pubkey 1 2,
         .pubkey_type 2 EVP_PKEY_RSA, .BN_bn2hex 2 .n 3, .BN_bn2hex 2 .e 4,
         .gcry_mpi_scan GCRYMPI_FMT_HEX 3 0 0 5,
         .gcry_mpi_scan GCRYMPI_FMT_HEX 4 0 0 6,
         .gcry_sexp_build "(public-key (rsa (n %m) (e %m)))" 5 6 0 7]) := by
  refine ⟨?_, ?_⟩
  · intro o der len p h1 h2 h3 h4 h5 h6
    rw [keyutil_get_cert_sexp_gnutls_eq]
    simp [gnutls_paths, gnutls_trace_raw, gnutls_trace_import, gnutls_trace_cleanup,
      Heap.calls, Event.released, sexp_template, h1, h2, h3, h4, h5, h6]
  · intro o der len p h1 h2 h3 h4 h5 h6 h7 h8
    rw [keyutil_get_cert_sexp_openssl_eq]
    simp [openssl_paths, openssl_trace_hex, openssl_trace_type, openssl_trace_cleanup,
      Heap.calls, Event.released, sexp_template, h1, h2, h3, h4, h5, h6, h7, h8]

/-- C6 at concrete inputs, one per build. -/
theorem keyutil_get_cert_sexp_success_witness :
    (keyutil_get_cert_sexp_gnutls
        ⟨0, 0, 0, 256, 3, 0, 0, 0, ⟨77, 5⟩, ⟨88, 6⟩⟩ 1000 10 0).p_sexp = 6 ∧
    (keyutil_get_cert_sexp_openssl
        ⟨true, true, 6, true, true, 0, 0, 0⟩ 1000 10 0).p_sexp = 7 :=
  ⟨(keyutil_get_cert_sexp_success.1 ⟨0, 0, 0, 256, 3, 0, 0, 0, ⟨77, 5⟩, ⟨88, 6⟩⟩ 1000 10 0
      rfl rfl rfl rfl rfl rfl).2.1,
   (keyutil_get_cert_sexp_success.2 ⟨true, true, 6, true, true, 0, 0, 0⟩ 1000 10 0
      rfl rfl rfl rfl rfl rfl rfl rfl).2.1⟩

/-- C7 (bad key).  With the certificate parsed, the key retrieved, RSA, and the
    raw values obtained: a failing modulus scan, a failing exponent scan, or a
    failing build each give `GPG_ERR_BAD_KEY`; after a failing modulus scan
    neither the exponent scan nor the build is called, after a failing exponent
    scan the build is not called. -/
theorem keyutil_get_cert_sexp_bad_key :
    (∀ (o : GnutlsOutcomes) (der : Ptr) (len : Nat) (p : Ptr),
      o.crt_init = GNUTLS_E_SUCCESS → o.crt_import = GNUTLS_E_SUCCESS →
      o.get_pk_rsa_raw = GNUTLS_E_SUCCESS →
      (o.mpi_scan_n ≠ 0 →
        (keyutil_get_cert_sexp_gnutls o der len p).ret = GPG_ERR_BAD_KEY ∧
        (keyutil_get_cert_sexp_gnutls o der len p).heap.calls =
          gnutls_trace_raw der len ++
          [.gcry_mpi_scan GCRYMPI_FMT_USG 2 o.m_size o.mpi_scan_n NULL]) ∧
      (o.mpi_scan_n = 0 → o.mpi_scan_e ≠ 0 →
        (keyutil_get_cert_sexp_gnutls o der len p).ret = GPG_ERR_BAD_KEY ∧
        (keyutil_get_cert_sexp_gnutls o der len p).heap.calls =
          gnutls_trace_raw der len ++
          [.gcry_mpi_scan GCRYMPI_FMT_USG 2 o.m_size 0 4,
           .gcry_mpi_scan GCRYMPI_FMT_USG 3 o.e_size o.mpi_scan_e NULL]) ∧
      (o.mpi_scan_n = 0 → o.mpi_scan_e = 0 → o.sexp_build ≠ 0 →
        (keyutil_get_cert_sexp_gnutls o der len p).ret = GPG_ERR_BAD_KEY ∧
        (keyutil_get_cert_sexp_gnutls o der len p).heap.calls =
          gnutls_trace_raw der len ++
          [.gcry_mpi_scan GCRYMPI_FMT_USG 2 o.m_size 0 4,
           .gcry_mpi_scan GCRYMPI_FMT_USG 3 o.e_size 0 5,
           .gcry_sexp_build sexp_template 4 5 o.sexp_build NULL])) ∧
    (∀ (o : OpensslOutcomes) (der : Ptr) (len : Nat) (p : Ptr),
      o.d2i_X509 = true → o.X509_get_pubkey = true → o.pkey_type = EVP_PKEY_RSA →
      o.bn2hex_n = true → o.bn2hex_e = true →
      (o.mpi_scan_n ≠ 0 →
        (keyutil_get_cert_sexp_openssl o der len p).ret = GPG_ERR_BAD_KEY ∧
        (keyutil_get_cert_sexp_openssl o der len p).heap.calls =
          openssl_trace_hex der len ++
          [.gcry_mpi_scan GCRYMPI_FMT_HEX 3 0 o.mpi_scan_n NULL]) ∧
      (o.mpi_scan_n = 0 → o.mpi_scan_e ≠ 0 →
        (keyutil_get_cert_sexp_openssl o der len p).ret = GPG_ERR_BAD_KEY ∧
        (keyutil_get_cert_sexp_openssl o der len p).heap.calls =
          openssl_trace_hex der len ++
          [.gcry_mpi_scan GCRYMPI_FMT_HEX 3 0 0 5,
           .gcry_mpi_scan GCRYMPI_FMT_HEX 4 0 o.mpi_scan_e NULL]) ∧
      (o.mpi_scan_n = 0 → o.mpi_scan_e = 0 → o.sexp_build ≠ 0 →
        (keyutil_get_cert_sexp_openssl o der len p).ret = GPG_ERR_BAD_KEY ∧
        (keyutil_get_cert_sexp_openssl o der len p).heap.calls =
          openssl_trace_hex der len ++
          [.gcry_mpi_scan GCRYMPI_FMT_HEX 3 0 0 5,
           .gcry_mpi_scan GCRYMPI_FMT_HEX 4 0 0 6,
           .gcry_sexp_build sexp_template 5 6 o.sexp_build NULL])) := by
  refine ⟨?_, ?_⟩
  · intro o der len p h1 h2 h3
    rw [keyutil_get_cert_sexp_gnutls_eq]
    refine ⟨?_, ?_, ?_⟩
    · intro h4
      simp [gnutls_paths, gnutls_trace_raw, gnutls_trace_import, gnutls_trace_cleanup,
        Heap.calls, Event.released, h1, h2, h3, h4]
    · intro h4 h5
      simp [gnutls_paths, gnutls_trace_raw, gnutls_trace_import, gnutls_trace_cleanup,
        Heap.calls, Event.released, h1, h2, h3, h4, h5]
    · intro h4 h5 h6
      simp [gnutls_paths, gnutls_trace_raw, gnutls_trace_import, gnutls_trace_cleanup,
        Heap.calls, Event.released, h1, h2, h3, h4, h5, h6]
  · intro o der len p h1 h2 h3 h4 h5
    rw [keyutil_get_cert_sexp_openssl_eq]
    refine ⟨?_, ?_, ?_⟩
    · intro h6
      simp [openssl_paths, openssl_trace_hex, openssl_trace_type,
        openssl_trace_cleanup, Heap.calls, Event.released, h1, h2, h3, h4, h5, h6]
    · intro h6 h7
      simp [openssl_paths, openssl_trace_hex, openssl_trace_type,
        openssl_trace_cleanup, Heap.calls, Event.released, h1, h2, h3, h4, h5, h6, h7]
    · intro h6 h7 h8
      simp [openssl_paths, openssl_trace_hex, openssl_trace_type,
        openssl_trace_cleanup, Heap.calls, Event.released, h1, h2, h3, h4, h5, h6, h7,
        h8]

/-- C7 at concrete inputs: a failing modulus scan on GnuTLS, a failing build on
    OpenSSL. -/
theorem keyutil_get_cert_sexp_bad_key_witness :
    (keyutil_get_cert_sexp_gnutls
        ⟨0, 0, 0, 256, 3, 65, 0, 0, ⟨0, 0⟩, ⟨0, 0⟩⟩ 1000 10 0).ret = GPG_ERR_BAD_KEY ∧
    (keyutil_get_cert_sexp_openssl
        ⟨true, true, 6, true, true, 0, 0, 83⟩ 1000 10 0).ret = GPG_ERR_BAD_KEY :=
  ⟨((keyutil_get_cert_sexp_bad_key.1 ⟨0, 0, 0, 256, 3, 65, 0, 0, ⟨0, 0⟩, ⟨0, 0⟩⟩ 1000 10 0
      rfl rfl rfl).1 (by decide)).1,
   ((keyutil_get_cert_sexp_bad_key.2 ⟨true, true, 6, true, true, 0, 0, 83⟩ 1000 10 0
      rfl rfl rfl rfl rfl).2.2 rfl rfl (by decide)).1⟩

/-- C9 (closed error taxonomy).  Whatever codes the collaborators return, the
    function returns `GPG_ERR_NO_ERROR`, `GPG_ERR_BAD_CERT`,
    `GPG_ERR_WRONG_PUBKEY_ALGO`, `GPG_ERR_BAD_KEY` or `GPG_ERR_ENOMEM`. -/
theorem keyutil_get_cert_sexp_error_taxonomy (der : Ptr) (len : Nat) (p : Ptr) :
    (∀ o : GnutlsOutcomes,
      (keyutil_get_cert_sexp_gnutls o der len p).ret ∈
        [GPG_ERR_NO_ERROR, GPG_ERR_BAD_CERT, GPG_ERR_WRONG_PUBKEY_ALGO,
         GPG_ERR_BAD_KEY, GPG_ERR_ENOMEM]) ∧
    (∀ o : OpensslOutcomes,
      (keyutil_get_cert_sexp_openssl o der len p).ret ∈
        [GPG_ERR_NO_ERROR, GPG_ERR_BAD_CERT, GPG_ERR_WRONG_PUBKEY_ALGO,
         GPG_ERR_BAD_KEY, GPG_ERR_ENOMEM]) := by
  refine ⟨?_, ?_⟩
  · intro o
    rw [keyutil_get_cert_sexp_gnutls_eq]
    generalize hr : gnutls_paths o der len p = r
    unfold gnutls_paths at hr
    split_ifs at hr <;> subst hr <;> simp
  · intro o
    rw [keyutil_get_cert_sexp_openssl_eq]
    generalize hr : openssl_paths o der len p = r
    unfold openssl_paths at hr
    split_ifs at hr <;> subst hr <;> simp

/-- Early exit of the GnuTLS build, for every outcome. -/
theorem gnutls_early_exit (o : GnutlsOutcomes) (der : Ptr) (len : Nat) (p : Ptr) :
    (keyutil_get_cert_sexp_gnutls o der len p).early_exit
      (GnutlsStep.fails o) GnutlsStep.error GnutlsStep.callees gnutls_steps := by
  rw [keyutil_get_cert_sexp_gnutls_eq]
  by_cases h1 : o.crt_init = 0
  · by_cases h2 : o.crt_import = 0
    · by_cases h3 : o.get_pk_rsa_raw = 0
      · by_cases h4 : o.mpi_scan_n = 0
        · by_cases h5 : o.mpi_scan_e = 0
          · by_cases h6 : o.sexp_build = 0 <;>
            simp [gnutls_paths, Result.early_exit, early_exit_code, steps_invoked,
              gnutls_steps, GnutlsStep.fails, GnutlsStep.error, GnutlsStep.callees,
              Heap.calls, Event.released, Event.callee, Event.uses, Event.acquired,
              handles_fed, gnutls_trace_raw, gnutls_trace_import, gnutls_trace_cleanup,
              NULL, GNUTLS_E_SUCCESS, GPG_ERR_NO_ERROR, h1, h2, h3, h4, h5, h6]
          · simp [gnutls_paths, Result.early_exit, early_exit_code, steps_invoked,
              gnutls_steps, GnutlsStep.fails, GnutlsStep.error, GnutlsStep.callees,
              Heap.calls, Event.released, Event.callee, Event.uses, Event.acquired,
              handles_fed, gnutls_trace_raw, gnutls_trace_import, gnutls_trace_cleanup,
              NULL, GNUTLS_E_SUCCESS, GPG_ERR_NO_ERROR, h1, h2, h3, h4, h5]
        · simp [gnutls_paths, Result.early_exit, early_exit_code, steps_invoked,
            gnutls_steps, GnutlsStep.fails, GnutlsStep.error, GnutlsStep.callees,
            Heap.calls, Event.released, Event.callee, Event.uses, Event.acquired,
            handles_fed, gnutls_trace_raw, gnutls_trace_import, gnutls_trace_cleanup,
            NULL, GNUTLS_E_SUCCESS, GPG_ERR_NO_ERROR, h1, h2, h3, h4]
      · simp [gnutls_paths, Result.early_exit, early_exit_code, steps_invoked,
          gnutls_steps, GnutlsStep.fails, GnutlsStep.error, GnutlsStep.callees,
          Heap.calls, Event.released, Event.callee, Event.uses, Event.acquired,
          handles_fed, gnutls_trace_raw, gnutls_trace_import, gnutls_trace_cleanup,
          NULL, GNUTLS_E_SUCCESS, GPG_ERR_NO_ERROR, h1, h2, h3]
    · by_cases hm : o.m_uninit.data = 0 <;> by_cases he : o.e_uninit.data = 0 <;>
      simp [gnutls_paths, Result.early_exit, early_exit_code, steps_invoked,
        gnutls_steps, GnutlsStep.fails, GnutlsStep.error, GnutlsStep.callees,
        Heap.calls, Event.released, Event.callee, Event.uses, Event.acquired,
        handles_fed, gnutls_stray_frees, NULL, GNUTLS_E_SUCCESS, GPG_ERR_NO_ERROR,
        h1, h2, hm, he]
  · by_cases hm : o.m_uninit.data = 0 <;> by_cases he : o.e_uninit.data = 0 <;>
    simp [gnutls_paths, Result.early_exit, early_exit_code, steps_invoked,
      gnutls_steps, GnutlsStep.fails, GnutlsStep.error, GnutlsStep.callees,
      Heap.calls, Event.released, Event.callee, Event.uses, Event.acquired,
      handles_fed, gnutls_stray_frees, NULL, GNUTLS_E_SUCCESS, GPG_ERR_NO_ERROR,
      h1, hm, he]

/-- Early exit of the OpenSSL build, for every outcome. -/
theorem openssl_early_exit (o : OpensslOutcomes) (der : Ptr) (len : Nat) (p : Ptr) :
    (keyutil_get_cert_sexp_openssl o der len p).early_exit
      (OpensslStep.fails o) OpensslStep.error OpensslStep.callees openssl_steps := by
  rw [keyutil_get_cert_sexp_openssl_eq]
  generalize hr : openssl_paths o der len p = r
  unfold openssl_paths at hr
  split_ifs at hr <;> subst hr <;>
  simp_all [Result.early_exit, early_exit_code, steps_invoked, openssl_steps,
    OpensslStep.fails, OpensslStep.error, OpensslStep.callees, Heap.calls,
    Event.released, Event.callee, Event.uses, Event.acquired, handles_fed,
    openssl_trace_hex, openssl_trace_type, openssl_trace_cleanup,
    NULL, EVP_PKEY_RSA, GPG_ERR_NO_ERROR]

/-- C10 (early exit).  On both builds and for every outcome: the returned code is
    the one the source assigns to the first failing step, the calls made before
    the cleanup are exactly those of the steps up to and including that step,
    and every such call is given only handles acquired by an earlier call. -/
theorem keyutil_get_cert_sexp_early_exit (der : Ptr) (len : Nat) (p : Ptr) :
    (∀ o : GnutlsOutcomes,
      (keyutil_get_cert_sexp_gnutls o der len p).early_exit
        (GnutlsStep.fails o) GnutlsStep.error GnutlsStep.callees gnutls_steps) ∧
    (∀ o : OpensslOutcomes,
      (keyutil_get_cert_sexp_openssl o der len p).early_exit
        (OpensslStep.fails o) OpensslStep.error OpensslStep.callees openssl_steps) :=
  ⟨fun o => gnutls_early_exit o der len p, fun o => openssl_early_exit o der len p⟩

/-! ## The hex-encoded keygrip -/

/-- Every nibble encodes to a character of `[0-9a-f]`. -/
theorem hex_digit_lower (d : Nat) (h : d < 16) : is_lower_hex (hex_digit d) = true := by
  interval_cases d <;> decide

/-- The encoding of a byte sequence has two characters per byte. -/
theorem hex_length (l : List Nat) : (l.flatMap hex_of_byte).length = 2 * l.length := by
  induction l with
  | nil => rfl
  | cons b t ih =>
    simp only [List.flatMap_cons, List.length_append, List.length_cons, ih, hex_of_byte,
      List.length_nil]
    omega

/-- The encoding of a byte sequence is over `[0-9a-f]`. -/
theorem hex_chars (l : List Nat) :
    ∀ c ∈ l.flatMap hex_of_byte, is_lower_hex c = true := by
  intro c hc
  rcases List.mem_flatMap.mp hc with ⟨b, _, hb⟩
  simp only [hex_of_byte, List.mem_cons, List.mem_singleton, List.not_mem_nil,
    or_false] at hb
  rcases hb with rfl | rfl
  · exact hex_digit_lower _ (by omega)
  · exact hex_digit_lower _ (by omega)

/-- C8 (hexgrip).  `keyutil_get_cert_hexgrip` returns null exactly when the digest
    fails or the encoder's allocation fails; otherwise it returns
    `encoding_bin2hex` of the 20 digest bytes, a string of 40 characters over
    `[0-9a-f]`; and equal digest bytes give equal strings. -/
theorem keyutil_get_cert_hexgrip_spec (gcry_pk_get_keygrip : Ptr → Option Grip) :
    (∀ (alloc_ok : Bool) (sexp : Ptr),
      keyutil_get_cert_hexgrip gcry_pk_get_keygrip alloc_ok sexp = none ↔
        (gcry_pk_get_keygrip sexp = none ∨ alloc_ok = false)) ∧
    (∀ (alloc_ok : Bool) (sexp : Ptr) (grip : Grip),
      gcry_pk_get_keygrip sexp = some grip →
      keyutil_get_cert_hexgrip gcry_pk_get_keygrip alloc_ok sexp =
        encoding_bin2hex alloc_ok grip.val 20) ∧
    (∀ (alloc_ok : Bool) (sexp : Ptr) (s : String),
      keyutil_get_cert_hexgrip gcry_pk_get_keygrip alloc_ok sexp = some s →
      s.length = 40 ∧ ∀ c ∈ s.data, is_lower_hex c = true) ∧
    (∀ (ok1 ok2 : Bool) (sexp1 sexp2 : Ptr) (g1 g2 : Grip) (s1 s2 : String),
      gcry_pk_get_keygrip sexp1 = some g1 → gcry_pk_get_keygrip sexp2 = some g2 →
      g1.val = g2.val →
      keyutil_get_cert_hexgrip gcry_pk_get_keygrip ok1 sexp1 = some s1 →
      keyutil_get_cert_hexgrip gcry_pk_get_keygrip ok2 sexp2 = some s2 →
      s1 = s2) := by
  refine ⟨?_, ?_, ?_, ?_⟩
  · intro alloc_ok sexp
    unfold keyutil_get_cert_hexgrip encoding_bin2hex
    cases hg : gcry_pk_get_keygrip sexp <;> cases alloc_ok <;> simp
  · intro alloc_ok sexp grip hg
    simp [keyutil_get_cert_hexgrip, hg]
  · intro alloc_ok sexp s hs
    unfold keyutil_get_cert_hexgrip encoding_bin2hex at hs
    cases hg : gcry_pk_get_keygrip sexp with
    | none => simp [hg] at hs
    | some grip =>
      cases alloc_ok with
      | false => simp [hg] at hs
      | true =>
        simp only [hg, if_true, Option.some.injEq] at hs
        subst hs
        have ht : grip.val.take 20 = grip.val :=
          List.take_of_length_le (by rw [grip.property])
        refine ⟨?_, ?_⟩
        · show ((grip.val.take 20).flatMap hex_of_byte).length = 40
          rw [ht, hex_length, grip.property]
        · exact hex_chars _
  · intro ok1 ok2 sexp1 sexp2 g1 g2 s1 s2 h1 h2 hv hs1 hs2
    unfold keyutil_get_cert_hexgrip encoding_bin2hex at hs1 hs2
    cases ok1 <;> cases ok2 <;> simp [h1, h2] at hs1 hs2
    rw [← hs1, ← hs2, hv]

/-- C8 at a concrete digest: the bytes `0, 13, 26, ...` of a successful digest
    give their 40 hex digits. -/
theorem keyutil_get_cert_hexgrip_witness :
    keyutil_get_cert_hexgrip
        (fun _ => some ⟨(List.range 20).map (· * 13), by decide⟩) true 6 =
      some "000d1a2734414e5b6875828f9ca9b6c3d0ddeaf7" ∧
    ("000d1a2734414e5b6875828f9ca9b6c3d0ddeaf7".length = 40 ∧
      ∀ c ∈ "000d1a2734414e5b6875828f9ca9b6c3d0ddeaf7".data, is_lower_hex c = true) :=
  ⟨by decide,
   (keyutil_get_cert_hexgrip_spec
      (fun _ => some ⟨(List.range 20).map (· * 13), by decide⟩)).2.2.1 true 6 _
      (by decide)⟩

end Keyutil

